import Mathlib

/-
Verification of the mkwd project scaffolder (src/mkwd.py).

The filesystem is modelled as an association list from paths (lists of
path components below the current working directory) to entries
(directories, or files with string contents).  The scaffolder's
operations on `pathlib.Path` are embedded as pure state-passing
functions on this model:

  * `Path.exists`          ~ `pathlib.Path.exists()`
  * `FS.mkdir`             ~ `Path.mkdir(exist_ok=True)` (one level)
  * `FS.mkdirParents`      ~ `Path.mkdir(parents=True, exist_ok=True)`
  * `FS.write`             ~ `open(path, "w"); f.write(content)`

`sys.exit(1)` after printing an error message is embedded as returning a
`CreateResult.failure` value carrying the error, the exit status 1 and
the filesystem at the moment of exit.  Console output of the structure
builder (one `  ✓ Created: <relative path>` line per created file,
printed by `_create_file`) is collected in a list of strings; the fixed
banner and "next steps" summary printed by `create` carry no per-path
information and are not collected.
-/

namespace Mkwd

set_option maxRecDepth 100000

/-- A filesystem path, as its list of components below the current
working directory (which is the root of the model and always exists). -/
abbrev Path := List String

/-- One filesystem entry: a directory, or a file with its full contents. -/
inductive FSEntry where
  | dir : FSEntry
  | file (content : String) : FSEntry
deriving DecidableEq, Repr

/-- The filesystem: an association list from paths to entries, in
creation order. -/
abbrev FS := List (Path × FSEntry)

/-- Does `p` exist?  The empty path is the current working directory,
which always exists (`Path.cwd()` in the source). -/
def FS.exists (fs : FS) (p : Path) : Bool :=
  p == [] || fs.any (fun e => e.1 == p)

/-- Create one directory level, `exist_ok` style: a no-op if the path is
already present. -/
def FS.mkdir (fs : FS) (p : Path) : FS :=
  if FS.exists fs p then fs else fs ++ [(p, FSEntry.dir)]

/-- Walk the remaining components `todo` of a path whose already-ensured
ancestor is `done`, creating each missing level in turn (helper for
`FS.mkdirParents`). -/
def FS.mkdirParentsGo (fs : FS) (done : Path) : List String → FS
  | [] => fs
  | c :: todo => FS.mkdirParentsGo (FS.mkdir fs (done ++ [c])) (done ++ [c]) todo

/-- `Path.mkdir(parents=True, exist_ok=True)`: create every missing
level of `p`, outermost first, then `p` itself; existing levels are
left alone. -/
def FS.mkdirParents (fs : FS) (p : Path) : FS :=
  FS.mkdirParentsGo fs [] p

/-- `open(path, "w"); f.write(content)`: create the file, or truncate
and rewrite it if it already exists.  (Writing over an existing
*directory* would raise in Python; under the scaffolder's invariants the
path is always fresh, so the distinction is never exercised.) -/
def FS.write (fs : FS) (p : Path) (c : String) : FS :=
  if FS.exists fs p then fs.map (fun e => if e.1 == p then (p, FSEntry.file c) else e)
  else fs ++ [(p, FSEntry.file c)]

/-- Contents of the file at `p`, if any. -/
def FS.read (fs : FS) (p : Path) : Option String :=
  match fs.find? (fun e => e.1 == p) with
  | some (_, FSEntry.file c) => some c
  | _ => none

/-- `Path.under root p` holds when `p` is `root` itself or lies below it. -/
def Path.under (root p : Path) : Bool :=
  root == p.take root.length

/-- The path of `p` relative to `root` as printed by
`filepath.relative_to(self.project_root)` (all uses have `root` as an
actual ancestor of `p`). -/
def relTo (root p : Path) : String :=
  String.intercalate "/" (p.drop root.length)

/-- Split a character stream at `/` (helper for `rootPath`). -/
def pathSplitGo : List Char → List Char → List (List Char)
  | [], acc => [acc.reverse]
  | c :: cs, acc =>
    if c = '/' then acc.reverse :: pathSplitGo cs [] else pathSplitGo cs (c :: acc)

/-- The project root `Path.cwd() / project_name`: `pathlib` splits the
name at `/` into separate components (empty components collapse), so a
name containing a separator denotes a *nested* path below the current
working directory. -/
def rootPath (name : String) : Path :=
  ((pathSplitGo name.toList []).filter (fun l => !l.isEmpty)).map (fun l => String.mk l)

mutual
/-- One node of a project-type's declarative layout: the value side of
the `structure` dict in the source — a nested dict (directory) or a
string (file contents). -/
inductive TreeNode where
  | file (content : String) : TreeNode
  | dir (children : Forest) : TreeNode
/-- A `structure` dict: an ordered mapping from names to nodes, as a
list of name/node pairs in insertion order (mutually inductive with
`TreeNode` so that the scaffolder's recursion over it is structural). -/
inductive Forest where
  | nil : Forest
  | cons (name : String) (node : TreeNode) (rest : Forest) : Forest
end

/-- Build a `Forest` from a list literal of name/node pairs. -/
def Forest.ofList : List (String × TreeNode) → Forest
  | [] => Forest.nil
  | (n, t) :: rest => Forest.cons n t (Forest.ofList rest)

-- literal returned by ProjectScaffolder._get_app_init
def get_app_init : String :=
  "\"\"\"Portfolio Application Package\"\"\"\n__version__ = \"1.0.0\"\n"

-- literal returned by ProjectScaffolder._get_main_py
def get_main_py : String :=
  "\"\"\"\nMain FastAPI Application\n\"\"\"\nfrom fastapi import FastAPI\nfrom fastapi.staticfiles import StaticFiles\nfrom fastapi.middleware.cors import CORSMiddleware\nfrom pathlib import Path\n\nfrom app.config import settings\nfrom app.database.connection import init_db\nfrom app.api.routes import pages, chatbot, email, contact, analytics\nfrom app.api.middleware.analytics import AnalyticsMiddleware\nfrom app.api.middleware.security import SecurityHeadersMiddleware\n\ndef create_app() -> FastAPI:\n    \"\"\"Application factory\"\"\"\n    app = FastAPI(\n        title=settings.PROJECT_NAME,\n        version=\"1.0.0\",\n        docs_url=\"/api/docs\" if settings.DEBUG else None,\n    )\n    \n    # CORS\n    app.add_middleware(\n        CORSMiddleware,\n        allow_origins=settings.ALLOWED_ORIGINS,\n        allow_credentials=True,\n        allow_methods=[\"*\"],\n        allow_headers=[\"*\"],\n    )\n    \n    # Custom Middleware\n    app.add_middleware(AnalyticsMiddleware)\n    app.add_middleware(SecurityHeadersMiddleware)\n    \n    # Static Files\n    app.mount(\n        \"/static\",\n        StaticFiles(directory=Path(__file__).parent.parent / \"static\"),\n        name=\"static\"\n    )\n    \n    # Routes\n    app.include_router(pages.router, tags=[\"Pages\"])\n    app.include_router(chatbot.router, prefix=\"/api/v1/chatbot\", tags=[\"Chatbot\"])\n    app.include_router(email.router, prefix=\"/api/v1/email\", tags=[\"Email\"])\n    app.include_router(contact.router, prefix=\"/api/v1/contact\", tags=[\"Contact\"])\n    app.include_router(analytics.router, prefix=\"/api/v1/analytics\", tags=[\"Analytics\"])\n    \n    @app.on_event(\"startup\")\n    async def startup():\n        init_db()\n        print(f\"🚀 \x7bsettings.PROJECT_NAME\x7d started!\")\n    \n    @app.get(\"/health\")\n    async def health():\n        return \x7b\"status\": \"healthy\"\x7d\n    \n    return app\n\napp = create_app()\n\nif __name__ == \"__main__\":\n    import uvicorn\n    uvicorn.run(\"app.main:app\", host=\"0.0.0.0\", port=8080, reload=settings.DEBUG)\n"

-- literal returned by ProjectScaffolder._get_config_py
def get_config_py : String :=
  "\"\"\"Configuration Management\"\"\"\nfrom pydantic_settings import BaseSettings\nfrom typing import List\n\nclass Settings(BaseSettings):\n    PROJECT_NAME: str = \"My Portfolio\"\n    ENVIRONMENT: str = \"development\"\n    DEBUG: bool = True\n    DATABASE_URL: str = \"sqlite:///./app.db\"\n    SECRET_KEY: str = \"change-me-in-production\"\n    ALLOWED_ORIGINS: List[str] = [\"http://localhost:8080\"]\n    \n    OPENAI_API_KEY: str = \"\"\n    GROQ_API_KEY: str = \"\"\n    WEBHOOK_URL: str = \"\"\n    \n    ENABLE_ANALYTICS: bool = True\n    \n    class Config:\n        env_file = \".env\"\n        case_sensitive = True\n\nsettings = Settings()\n"

-- literal returned by ProjectScaffolder._get_models_py
def get_models_py : String :=
  "\"\"\"Database Models\"\"\"\nfrom sqlalchemy import Column, Integer, String, DateTime, Text, Boolean\nfrom sqlalchemy.ext.declarative import declarative_base\nfrom sqlalchemy.sql import func\n\nBase = declarative_base()\n\nclass ContactMessage(Base):\n    __tablename__ = \x27contact_messages\x27\n    \n    id = Column(Integer, primary_key=True)\n    name = Column(String(200), nullable=False)\n    email = Column(String(200), nullable=False)\n    message = Column(Text, nullable=False)\n    submitted_at = Column(DateTime, default=func.now())\n    read = Column(Boolean, default=False)\n    \n    def to_dict(self):\n        return \x7b\n            \x27id\x27: self.id,\n            \x27name\x27: self.name,\n            \x27email\x27: self.email,\n            \x27message\x27: self.message,\n            \x27submitted_at\x27: self.submitted_at.isoformat()\n        \x7d\n\nclass Visitor(Base):\n    __tablename__ = \x27visitors\x27\n    \n    id = Column(Integer, primary_key=True)\n    ip_hash = Column(String(64))\n    page = Column(String(200))\n    timestamp = Column(DateTime, default=func.now())\n"

-- literal returned by ProjectScaffolder._get_connection_py
def get_connection_py : String :=
  "\"\"\"Database Connection\"\"\"\nfrom sqlalchemy import create_engine\nfrom sqlalchemy.orm import sessionmaker\nfrom contextlib import contextmanager\nfrom app.config import settings\n\nengine = create_engine(\n    settings.DATABASE_URL,\n    echo=settings.DEBUG,\n    connect_args=\x7b\"check_same_thread\": False\x7d if \"sqlite\" in settings.DATABASE_URL else \x7b\x7d\n)\n\nSessionLocal = sessionmaker(autocommit=False, autoflush=False, bind=engine)\n\n@contextmanager\ndef get_db():\n    db = SessionLocal()\n    try:\n        yield db\n        db.commit()\n    except:\n        db.rollback()\n        raise\n    finally:\n        db.close()\n\ndef init_db():\n    from app.database.models import Base\n    Base.metadata.create_all(bind=engine)\n    print(\"\u2705 Database initialized\")\n"

-- literal returned by ProjectScaffolder._get_pages_routes
def get_pages_routes : String :=
  "\"\"\"Page Routes\"\"\"\nfrom fastapi import APIRouter, Request\nfrom fastapi.responses import HTMLResponse\nfrom fastapi.templating import Jinja2Templates\n\nrouter = APIRouter()\ntemplates = Jinja2Templates(directory=\"templates\")\n\n@router.get(\"/\", response_class=HTMLResponse)\nasync def home(request: Request):\n    return templates.TemplateResponse(\"pages/home.html\", \x7b\n        \"request\": request,\n        \"title\": \"Home\"\n    \x7d)\n"

-- literal returned by ProjectScaffolder._get_chatbot_routes
def get_chatbot_routes : String :=
  "\"\"\"Chatbot Routes\"\"\"\nfrom fastapi import APIRouter\n\nrouter = APIRouter()\n\n@router.post(\"/upload\")\nasync def upload_pdf():\n    return \x7b\"message\": \"Upload endpoint - implement your logic here\"\x7d\n\n@router.post(\"/query\")\nasync def query_pdf():\n    return \x7b\"message\": \"Query endpoint - implement your logic here\"\x7d\n"

-- literal returned by ProjectScaffolder._get_email_routes
def get_email_routes : String :=
  "\"\"\"Email Generator Routes\"\"\"\nfrom fastapi import APIRouter\n\nrouter = APIRouter()\n\n@router.post(\"/generate\")\nasync def generate_email():\n    return \x7b\"message\": \"Email generation - implement your logic here\"\x7d\n"

-- literal returned by ProjectScaffolder._get_contact_routes
def get_contact_routes : String :=
  "\"\"\"Contact Form Routes\"\"\"\nfrom fastapi import APIRouter, Request, Body\nfrom app.database.models import ContactMessage\nfrom app.database.connection import get_db\n\nrouter = APIRouter()\n\n@router.post(\"/message\")\nasync def submit_contact(request: Request, payload: dict = Body(...)):\n    with get_db() as db:\n        msg = ContactMessage(\n            name=payload[\x27name\x27],\n            email=payload[\x27email\x27],\n            message=payload[\x27message\x27]\n        )\n        db.add(msg)\n    return \x7b\"status\": \"success\"\x7d\n"

-- literal returned by ProjectScaffolder._get_analytics_routes
def get_analytics_routes : String :=
  "\"\"\"Analytics Routes\"\"\"\nfrom fastapi import APIRouter\n\nrouter = APIRouter()\n\n@router.get(\"/summary\")\nasync def get_analytics():\n    return \x7b\"message\": \"Analytics - implement your logic here\"\x7d\n"

-- literal returned by ProjectScaffolder._get_analytics_middleware
def get_analytics_middleware : String :=
  "\"\"\"Analytics Middleware\"\"\"\nfrom starlette.middleware.base import BaseHTTPMiddleware\nfrom app.database.models import Visitor\nfrom app.database.connection import get_db\nimport hashlib\n\nclass AnalyticsMiddleware(BaseHTTPMiddleware):\n    async def dispatch(self, request, call_next):\n        response = await call_next(request)\n        \n        if not request.url.path.startswith(\x27/static\x27):\n            try:\n                ip_hash = hashlib.sha256(request.client.host.encode()).hexdigest()\n                with get_db() as db:\n                    visitor = Visitor(ip_hash=ip_hash, page=request.url.path)\n                    db.add(visitor)\n            except:\n                pass\n        \n        return response\n"

-- literal returned by ProjectScaffolder._get_security_middleware
def get_security_middleware : String :=
  "\"\"\"Security Headers Middleware\"\"\"\nfrom starlette.middleware.base import BaseHTTPMiddleware\n\nclass SecurityHeadersMiddleware(BaseHTTPMiddleware):\n    async def dispatch(self, request, call_next):\n        response = await call_next(request)\n        response.headers[\"X-Content-Type-Options\"] = \"nosniff\"\n        response.headers[\"X-Frame-Options\"] = \"DENY\"\n        response.headers[\"X-XSS-Protection\"] = \"1; mode=block\"\n        return response\n"

-- literal returned by ProjectScaffolder._get_base_css
def get_base_css : String :=
  "/* Base Styles */\n* \x7b\n    margin: 0;\n    padding: 0;\n    box-sizing: border-box;\n\x7d\n\n:root \x7b\n    --primary-color: #2c3e50;\n    --secondary-color: #3498db;\n    --text-color: #333;\n    --bg-color: #ffffff;\n    --transition: all 0.3s ease;\n\x7d\n\nbody \x7b\n    font-family: \x27Poppins\x27, sans-serif;\n    color: var(--text-color);\n    background-color: var(--bg-color);\n    line-height: 1.6;\n\x7d\n\n.container \x7b\n    max-width: 1200px;\n    margin: 0 auto;\n    padding: 0 20px;\n\x7d\n"

-- literal returned by ProjectScaffolder._get_main_js
def get_main_js : String :=
  "// Main JavaScript\nconsole.log(\x27Portfolio loaded!\x27);\n\n// Add your global JavaScript here\n"

-- literal returned by ProjectScaffolder._get_base_template
def get_base_template : String :=
  "<!DOCTYPE html>\n<html lang=\"en\">\n<head>\n    <meta charset=\"UTF-8\">\n    <meta name=\"viewport\" content=\"width=device-width, initial-scale=1.0\">\n    <title>\x7b% block title %\x7d\x7b\x7b title \x7d\x7d\x7b% endblock %\x7d</title>\n    <link rel=\"preconnect\" href=\"https://fonts.googleapis.com\">\n    <link href=\"https://fonts.googleapis.com/css2?family=Poppins:wght@300;400;600;700&display=swap\" rel=\"stylesheet\">\n    <link rel=\"stylesheet\" href=\"\x7b\x7b url_for(\x27static\x27, path=\x27css/base.css\x27) \x7d\x7d\">\n    \x7b% block extra_css %\x7d\x7b% endblock %\x7d\n</head>\n<body>\n    \x7b% include \x27components/navbar.html\x27 %\x7d\n    \n    <main>\n        \x7b% block content %\x7d\x7b% endblock %\x7d\n    </main>\n    \n    \x7b% include \x27components/footer.html\x27 %\x7d\n    \n    <script src=\"\x7b\x7b url_for(\x27static\x27, path=\x27js/main.js\x27) \x7d\x7d\"></script>\n    \x7b% block extra_js %\x7d\x7b% endblock %\x7d\n</body>\n</html>\n"

-- literal returned by ProjectScaffolder._get_navbar_component
def get_navbar_component : String :=
  "<nav class=\"navbar\">\n    <div class=\"container\">\n        <div class=\"logo\">MyPortfolio</div>\n        <ul class=\"nav-links\">\n            <li><a href=\"/\">Home</a></li>\n            <li><a href=\"/portfolio\">Portfolio</a></li>\n            <li><a href=\"/chatbot\">Chatbot</a></li>\n            <li><a href=\"#contact\">Contact</a></li>\n        </ul>\n    </div>\n</nav>\n"

-- literal returned by ProjectScaffolder._get_footer_component
def get_footer_component : String :=
  "<footer class=\"footer\">\n    <div class=\"container\">\n        <p>&copy; 2024 MyPortfolio. All rights reserved.</p>\n    </div>\n</footer>\n"

-- literal returned by ProjectScaffolder._get_home_page
def get_home_page : String :=
  "\x7b% extends \"base.html\" %\x7d\n\n\x7b% block content %\x7d\n<div class=\"hero\">\n    <div class=\"container\">\n        <h1>Welcome to My Portfolio</h1>\n        <p>Data Scientist | ML Engineer | Problem Solver</p>\n    </div>\n</div>\n\x7b% endblock %\x7d\n"

-- literal returned by ProjectScaffolder._get_env_example
def get_env_example : String :=
  "# Application\nPROJECT_NAME=\"My Portfolio\"\nENVIRONMENT=development\nDEBUG=true\n\n# Database\nDATABASE_URL=sqlite:///./app.db\n\n# Security\nSECRET_KEY=your-secret-key-here\n\n# API Keys\nOPENAI_API_KEY=\nGROQ_API_KEY=\n\n# Webhooks\nWEBHOOK_URL=\n\n# CORS\nALLOWED_ORIGINS=http://localhost:8080\n"

-- literal returned by ProjectScaffolder._get_gitignore
def get_gitignore : String :=
  "# Python\n__pycache__/\n*.py[cod]\n*$py.class\n*.so\n.Python\nvenv/\nenv/\nENV/\n*.egg-info/\ndist/\nbuild/\n\n# Database\n*.db\n*.db-journal\n*.sqlite\n*.sqlite3\n\n# Environment\n.env\n.env.local\n\n# IDE\n.vscode/\n.idea/\n*.swp\n*.swo\n\n# OS\n.DS_Store\nThumbs.db\n\n# Logs\n*.log\n\n# Cache\n.cache/\n.pytest_cache/\n"

-- literal returned by ProjectScaffolder._get_requirements
def get_requirements : String :=
  "# Core\nfastapi==0.109.0\nuvicorn[standard]==0.27.0\npython-multipart==0.0.6\njinja2==3.1.3\npython-dotenv==1.0.0\npydantic-settings==2.1.0\n\n# Database\nsqlalchemy==2.0.25\nalembic==1.13.1\n\n# Utilities\nhttpx==0.26.0\nrequests==2.31.0\n\n# Testing\npytest==7.4.4\npytest-asyncio==0.23.3\n"

-- f-string returned by ProjectScaffolder._get_readme (interpolates self.project_name)
def get_readme (project_name : String) : String :=
  "# " ++ project_name ++ "\n\nProfessional web application built with FastAPI.\n\n## Quick Start\n\n\x60\x60\x60bash\n# Setup\npython -m venv venv\nsource venv/bin/activate  # Windows: venv\\Scripts\\activate\npip install -r requirements.txt\n\n# Configure\ncp .env.example .env\n# Edit .env with your settings\n\n# Run\npython app/main.py\n\x60\x60\x60\n\nVisit: http://localhost:8080\n\n## Features\n\n- \u2705 Modern FastAPI backend\n- \u2705 SQLAlchemy database integration\n- \u2705 Professional project structure\n- \u2705 Analytics tracking\n- \u2705 API documentation at /api/docs\n\n## Project Structure\n\n\x60\x60\x60\n" ++ project_name ++ "/\n\u251c\u2500\u2500 app/           # Application code\n\u251c\u2500\u2500 static/        # Static assets\n\u251c\u2500\u2500 templates/     # HTML templates\n\u251c\u2500\u2500 tests/         # Tests\n\u2514\u2500\u2500 alembic/       # Database migrations\n\x60\x60\x60\n\n## Development\n\n\x60\x60\x60bash\n# Run with auto-reload\npython app/main.py\n\n# Run tests\npytest\n\n# Database migrations\nalembic revision --autogenerate -m \"description\"\nalembic upgrade head\n\x60\x60\x60\n"

-- literal returned by ProjectScaffolder._get_dockerfile
def get_dockerfile : String :=
  "FROM python:3.11-slim\n\nWORKDIR /app\n\nCOPY requirements.txt .\nRUN pip install --no-cache-dir -r requirements.txt\n\nCOPY . .\n\nEXPOSE 8080\n\nCMD [\"python\", \"app/main.py\"]\n"

-- literal returned by ProjectScaffolder._get_docker_compose
def get_docker_compose : String :=
  "version: \x273.8\x27\n\nservices:\n  app:\n    build: .\n    ports:\n      - \"8080:8080\"\n    environment:\n      - DATABASE_URL=sqlite:///./app.db\n    volumes:\n      - .:/app\n"

-- literal returned by ProjectScaffolder._get_run_py
def get_run_py : String :=
  "\"\"\"Development server runner\"\"\"\nimport uvicorn\nfrom app.config import settings\n\nif __name__ == \"__main__\":\n    uvicorn.run(\n        \"app.main:app\",\n        host=\"0.0.0.0\",\n        port=8080,\n        reload=settings.DEBUG,\n        log_level=\"info\"\n    )\n"

-- the `structure` dict of ProjectScaffolder._create_portfolio_structure
def portfolio_structure_list : List (String × TreeNode) := [
  ("app", TreeNode.dir (Forest.ofList [
    ("__init__.py", TreeNode.file get_app_init),
    ("main.py", TreeNode.file get_main_py),
    ("config.py", TreeNode.file get_config_py),
    ("dependencies.py", TreeNode.file ""),
    ("api", TreeNode.dir (Forest.ofList [
      ("__init__.py", TreeNode.file ""),
      ("routes", TreeNode.dir (Forest.ofList [
        ("__init__.py", TreeNode.file ""),
        ("pages.py", TreeNode.file get_pages_routes),
        ("chatbot.py", TreeNode.file get_chatbot_routes),
        ("email.py", TreeNode.file get_email_routes),
        ("contact.py", TreeNode.file get_contact_routes),
        ("analytics.py", TreeNode.file get_analytics_routes)])),
      ("middleware", TreeNode.dir (Forest.ofList [
        ("__init__.py", TreeNode.file ""),
        ("analytics.py", TreeNode.file get_analytics_middleware),
        ("security.py", TreeNode.file get_security_middleware),
        ("error.py", TreeNode.file "")]))])),
    ("core", TreeNode.dir (Forest.ofList [
      ("__init__.py", TreeNode.file ""),
      ("graphrag.py", TreeNode.file "# Your GraphRAG implementation goes here"),
      ("document_processor.py", TreeNode.file "# Your document processor goes here"),
      ("knowledgegraph.py", TreeNode.file "# Your knowledge graph goes here"),
      ("queryengine.py", TreeNode.file "# Your query engine goes here"),
      ("email_generator.py", TreeNode.file "# Your email generator goes here")])),
    ("database", TreeNode.dir (Forest.ofList [
      ("__init__.py", TreeNode.file ""),
      ("models.py", TreeNode.file get_models_py),
      ("connection.py", TreeNode.file get_connection_py),
      ("crud.py", TreeNode.file "# CRUD operations go here")])),
    ("utils", TreeNode.dir (Forest.ofList [
      ("__init__.py", TreeNode.file ""),
      ("session.py", TreeNode.file ""),
      ("validators.py", TreeNode.file "")]))])),
  ("static", TreeNode.dir (Forest.ofList [
    ("css", TreeNode.dir (Forest.ofList [
      ("base.css", TreeNode.file get_base_css),
      ("components.css", TreeNode.file ""),
      ("utils.css", TreeNode.file ""),
      ("pages", TreeNode.dir (Forest.ofList [
        ("home.css", TreeNode.file ""),
        ("portfolio.css", TreeNode.file ""),
        ("chatbot.css", TreeNode.file ""),
        ("contact.css", TreeNode.file "")]))])),
    ("js", TreeNode.dir (Forest.ofList [
      ("main.js", TreeNode.file get_main_js),
      ("components", TreeNode.dir (Forest.ofList [
        ("navbar.js", TreeNode.file ""),
        ("footer.js", TreeNode.file ""),
        ("typing-effect.js", TreeNode.file "")])),
      ("pages", TreeNode.dir (Forest.ofList [
        ("chatbot.js", TreeNode.file ""),
        ("email.js", TreeNode.file ""),
        ("contact.js", TreeNode.file "")]))])),
    ("img", TreeNode.dir (Forest.ofList [
      ("logo", TreeNode.dir (Forest.ofList [])),
      ("projects", TreeNode.dir (Forest.ofList [])),
      ("backgrounds", TreeNode.dir (Forest.ofList []))]))])),
  ("templates", TreeNode.dir (Forest.ofList [
    ("base.html", TreeNode.file get_base_template),
    ("components", TreeNode.dir (Forest.ofList [
      ("navbar.html", TreeNode.file get_navbar_component),
      ("footer.html", TreeNode.file get_footer_component),
      ("project-card.html", TreeNode.file "")])),
    ("pages", TreeNode.dir (Forest.ofList [
      ("home.html", TreeNode.file get_home_page),
      ("about.html", TreeNode.file ""),
      ("portfolio.html", TreeNode.file ""),
      ("chatbot.html", TreeNode.file ""),
      ("email-generator.html", TreeNode.file ""),
      ("project-details", TreeNode.dir (Forest.ofList [
        ("cancer-prediction.html", TreeNode.file ""),
        ("cold-email.html", TreeNode.file ""),
        ("object-detection.html", TreeNode.file "")]))]))])),
  ("tests", TreeNode.dir (Forest.ofList [
    ("__init__.py", TreeNode.file ""),
    ("test_api.py", TreeNode.file ""),
    ("test_database.py", TreeNode.file ""),
    ("test_ml.py", TreeNode.file "")])),
  ("alembic", TreeNode.dir (Forest.ofList [
    ("versions", TreeNode.dir (Forest.ofList [])),
    ("env.py", TreeNode.file "")]))]

-- the `structure` dict of ProjectScaffolder._create_api_structure
def api_structure_list : List (String × TreeNode) := [
  ("app", TreeNode.dir (Forest.ofList [
    ("__init__.py", TreeNode.file ""),
    ("main.py", TreeNode.file get_main_py),
    ("config.py", TreeNode.file get_config_py),
    ("api", TreeNode.dir (Forest.ofList [
      ("__init__.py", TreeNode.file ""),
      ("routes", TreeNode.dir (Forest.ofList [
        ("__init__.py", TreeNode.file ""),
        ("users.py", TreeNode.file ""),
        ("auth.py", TreeNode.file "")]))])),
    ("database", TreeNode.dir (Forest.ofList [
      ("__init__.py", TreeNode.file ""),
      ("models.py", TreeNode.file ""),
      ("connection.py", TreeNode.file get_connection_py)]))])),
  ("tests", TreeNode.dir (Forest.ofList [
    ("__init__.py", TreeNode.file ""),
    ("test_api.py", TreeNode.file "")]))]

/-- The portfolio `structure` dict as a forest. -/
def portfolio_structure : Forest := Forest.ofList portfolio_structure_list

/-- The API `structure` dict as a forest. -/
def api_structure : Forest := Forest.ofList api_structure_list

/-- `ProjectScaffolder._create_file`: write `content` to `filepath` and
print one `  ✓ Created: <path relative to the project root>` line. -/
def create_file (root : Path) (fs : FS) (filepath : Path) (content : String) :
    FS × String :=
  (FS.write fs filepath content, "  ✓ Created: " ++ relTo root filepath)

/-- `ProjectScaffolder._build_structure`: walk the dict in order; a dict
value is a directory (created with `parents=True, exist_ok=True`, then
recursed into), a string value is a file (parent ensured with
`parents=True, exist_ok=True`, then written).  `root` is the project
root, used only for relative-path reporting. -/
def build_structure (root base : Path) (children : Forest) (fs : FS) :
    FS × List String :=
  match children with
  | Forest.nil => (fs, [])
  | Forest.cons name (TreeNode.dir cs) rest =>
    let fs1 := FS.mkdirParents fs (base ++ [name])
    let r1 := build_structure root (base ++ [name]) cs fs1
    let r2 := build_structure root base rest r1.1
    (r2.1, r1.2 ++ r2.2)
  | Forest.cons name (TreeNode.file c) rest =>
    let fs1 := FS.mkdirParents fs base
    let r1 := create_file root fs1 (base ++ [name]) c
    let r2 := build_structure root base rest r1.1
    (r2.1, r1.2 :: r2.2)

/-- `ProjectScaffolder._create_portfolio_structure`: build the
`structure` dict below the project root, then create the seven
root-level files. -/
def create_portfolio_structure (project_name : String) (fs : FS) :
    FS × List String :=
  let root := rootPath project_name
  let r1 := build_structure root root portfolio_structure fs
  let r2 := create_file root r1.1 (root ++ [".env.example"]) get_env_example
  let r3 := create_file root r2.1 (root ++ [".gitignore"]) get_gitignore
  let r4 := create_file root r3.1 (root ++ ["requirements.txt"]) get_requirements
  let r5 := create_file root r4.1 (root ++ ["README.md"]) (get_readme project_name)
  let r6 := create_file root r5.1 (root ++ ["Dockerfile"]) get_dockerfile
  let r7 := create_file root r6.1 (root ++ ["docker-compose.yml"]) get_docker_compose
  let r8 := create_file root r7.1 (root ++ ["run.py"]) get_run_py
  (r8.1, r1.2 ++ [r2.2, r3.2, r4.2, r5.2, r6.2, r7.2, r8.2])

/-- `ProjectScaffolder._create_api_structure`: build the API `structure`
dict below the project root, then create the four root-level files. -/
def create_api_structure (project_name : String) (fs : FS) :
    FS × List String :=
  let root := rootPath project_name
  let r1 := build_structure root root api_structure fs
  let r2 := create_file root r1.1 (root ++ [".env.example"]) get_env_example
  let r3 := create_file root r2.1 (root ++ [".gitignore"]) get_gitignore
  let r4 := create_file root r3.1 (root ++ ["requirements.txt"]) get_requirements
  let r5 := create_file root r4.1 (root ++ ["README.md"]) (get_readme project_name)
  (r5.1, r1.2 ++ [r2.2, r3.2, r4.2, r5.2])

/-- `ProjectScaffolder._create_fullstack_structure`: the body is exactly
one call to `_create_portfolio_structure`. -/
def create_fullstack_structure (project_name : String) (fs : FS) :
    FS × List String :=
  create_portfolio_structure project_name fs

/-- The two error exits of `ProjectScaffolder.create`.  The spec's
`AlreadyExistsError` is the "Directory already exists" message followed
by `sys.exit(1)`; its `ConfigurationError` is the "Unknown project type"
message followed by `sys.exit(1)`. -/
inductive ScaffoldError where
  | alreadyExists (name : String) : ScaffoldError
  | unknownType (ptype : String) : ScaffoldError
deriving DecidableEq, Repr

/-- The error line printed before `sys.exit(1)`. -/
def ScaffoldError.message : ScaffoldError → String
  | ScaffoldError.alreadyExists name =>
    "❌ Error: Directory \x27" ++ name ++ "\x27 already exists!"
  | ScaffoldError.unknownType t => "❌ Unknown project type: " ++ t

/-- Outcome of one `ProjectScaffolder.create` invocation: normal return
with the final filesystem and the builder's progress lines, or
`sys.exit` with an error, the exit status, and the filesystem at the
moment of exit. -/
inductive CreateResult where
  | success (fs : FS) (output : List String) : CreateResult
  | failure (err : ScaffoldError) (exitCode : Nat) (fs : FS) : CreateResult
deriving DecidableEq, Repr

/-- `ProjectScaffolder.create`: check existence of the project root
first; only then dispatch on the project type, with unknown types
rejected after the existence check. -/
def create (project_name project_type : String) (fs : FS) : CreateResult :=
  if FS.exists fs (rootPath project_name) then
    CreateResult.failure (ScaffoldError.alreadyExists project_name) 1 fs
  else if project_type == "portfolio" then
    let r := create_portfolio_structure project_name fs
    CreateResult.success r.1 r.2
  else if project_type == "api" then
    let r := create_api_structure project_name fs
    CreateResult.success r.1 r.2
  else if project_type == "fullstack" then
    let r := create_fullstack_structure project_name fs
    CreateResult.success r.1 r.2
  else
    CreateResult.failure (ScaffoldError.unknownType project_type) 1 fs

/-- The three project types accepted by the tool (the `--type` enum). -/
inductive ProjectType where
  | portfolio : ProjectType
  | api : ProjectType
  | fullstack : ProjectType
deriving DecidableEq, Repr

/-- The root-level files written by `_create_portfolio_structure` after
the `structure` dict, as catalog leaves (name and contents, in creation
order). -/
def portfolio_root_files (project_name : String) : List (String × TreeNode) :=
  [(".env.example", TreeNode.file get_env_example),
   (".gitignore", TreeNode.file get_gitignore),
   ("requirements.txt", TreeNode.file get_requirements),
   ("README.md", TreeNode.file (get_readme project_name)),
   ("Dockerfile", TreeNode.file get_dockerfile),
   ("docker-compose.yml", TreeNode.file get_docker_compose),
   ("run.py", TreeNode.file get_run_py)]

/-- The root-level files written by `_create_api_structure` after the
`structure` dict. -/
def api_root_files (project_name : String) : List (String × TreeNode) :=
  [(".env.example", TreeNode.file get_env_example),
   (".gitignore", TreeNode.file get_gitignore),
   ("requirements.txt", TreeNode.file get_requirements),
   ("README.md", TreeNode.file (get_readme project_name))]

/-- The template catalog of the spec: the full tree definition for one
project type and name — the `structure` dict of the matching
`_create_*_structure` method followed by its root-level files.  A pure
function of its two arguments. -/
def resolve : ProjectType → String → Forest
  | ProjectType.portfolio, n => Forest.ofList (portfolio_structure_list ++ portfolio_root_files n)
  | ProjectType.api, n => Forest.ofList (api_structure_list ++ api_root_files n)
  | ProjectType.fullstack, n => Forest.ofList (portfolio_structure_list ++ portfolio_root_files n)

/-- Top-level names of a forest (the dict keys, in order). -/
def Forest.keys : Forest → List String
  | Forest.nil => []
  | Forest.cons n _ rest => n :: Forest.keys rest

/-- Is the forest empty? -/
def Forest.isNil : Forest → Bool
  | Forest.nil => true
  | Forest.cons _ _ _ => false

/-- Keys are pairwise distinct at every level.  This always holds for
the source catalog, whose levels are Python dict literals (dict keys are
unique). -/
def nodupKeys : Forest → Bool
  | Forest.nil => true
  | Forest.cons n (TreeNode.dir cs) rest =>
    !((Forest.keys rest).contains n) && nodupKeys cs && nodupKeys rest
  | Forest.cons n (TreeNode.file _) rest =>
    !((Forest.keys rest).contains n) && nodupKeys rest

/-- The filesystem entry materialization creates for each node of the
forest, in creation order: a directory or file at the path obtained by
extending `base` with the node chain of names. -/
def node_entries (base : Path) : Forest → FS
  | Forest.nil => []
  | Forest.cons n (TreeNode.dir cs) rest =>
    (base ++ [n], FSEntry.dir) :: (node_entries (base ++ [n]) cs ++ node_entries base rest)
  | Forest.cons n (TreeNode.file c) rest =>
    (base ++ [n], FSEntry.file c) :: node_entries base rest

/-- The path of every node of the forest below `base`, in creation
order; the nesting of the forest is mirrored in the paths. -/
def node_paths (base : Path) : Forest → List Path
  | Forest.nil => []
  | Forest.cons n (TreeNode.dir cs) rest =>
    (base ++ [n]) :: (node_paths (base ++ [n]) cs ++ node_paths base rest)
  | Forest.cons n (TreeNode.file _) rest =>
    (base ++ [n]) :: node_paths base rest

/-- The progress lines `_build_structure` prints for a forest below
`base` (one per file, none for directories). -/
def build_outputs (root base : Path) : Forest → List String
  | Forest.nil => []
  | Forest.cons n (TreeNode.dir cs) rest =>
    build_outputs root (base ++ [n]) cs ++ build_outputs root base rest
  | Forest.cons n (TreeNode.file _) rest =>
    ("  ✓ Created: " ++ relTo root (base ++ [n])) :: build_outputs root base rest

/-- The paths of the file nodes of a forest relative to the project
root, in creation order (`rel` is the relative path of `base`). -/
def file_rel_paths (rel : Path) : Forest → List Path
  | Forest.nil => []
  | Forest.cons n (TreeNode.dir cs) rest =>
    file_rel_paths (rel ++ [n]) cs ++ file_rel_paths rel rest
  | Forest.cons n (TreeNode.file _) rest =>
    (rel ++ [n]) :: file_rel_paths rel rest

/-- Number of file nodes (the content-bearing leaves of the TreeNode
variant) of a forest. -/
def fileCount : Forest → Nat
  | Forest.nil => 0
  | Forest.cons _ (TreeNode.dir cs) rest => fileCount cs + fileCount rest
  | Forest.cons _ (TreeNode.file _) rest => 1 + fileCount rest

/-- Number of directory nodes of a forest. -/
def dirCount : Forest → Nat
  | Forest.nil => 0
  | Forest.cons _ (TreeNode.dir cs) rest => 1 + dirCount cs + dirCount rest
  | Forest.cons _ (TreeNode.file _) rest => dirCount rest

/-- Number of nodes of a forest. -/
def nodeCount : Forest → Nat
  | Forest.nil => 0
  | Forest.cons _ (TreeNode.dir cs) rest => 1 + nodeCount cs + nodeCount rest
  | Forest.cons _ (TreeNode.file _) rest => 1 + nodeCount rest

/-- Names of all directory nodes of a forest, at any depth. -/
def dir_names : Forest → List String
  | Forest.nil => []
  | Forest.cons n (TreeNode.dir cs) rest => n :: (dir_names cs ++ dir_names rest)
  | Forest.cons _ (TreeNode.file _) rest => dir_names rest

/-- File count of each built-in project type (66 = 59 structure files +
7 root-level files; 16 = 12 + 4). -/
def project_file_count : ProjectType → Nat
  | ProjectType.portfolio => 66
  | ProjectType.api => 16
  | ProjectType.fullstack => 66

/-- Directory count of each built-in project type. -/
def project_dir_count : ProjectType → Nat
  | ProjectType.portfolio => 24
  | ProjectType.api => 5
  | ProjectType.fullstack => 24

/-- Does the character list `sub` occur at the head of the first list? -/
def str_starts : List Char → List Char → Bool
  | _, [] => true
  | [], _ :: _ => false
  | a :: as, b :: bs => a == b && str_starts as bs

/-- Does the character list `sub` occur anywhere in the first list? -/
def str_contains_aux : List Char → List Char → Bool
  | [], sub => sub.isEmpty
  | a :: rest, sub => str_starts (a :: rest) sub || str_contains_aux rest sub

/-- Substring test on strings. -/
def str_contains (s sub : String) : Bool :=
  str_contains_aux s.toList sub.toList

/-- The literal written before the first `project_name` interpolation of
the README f-string. -/
def readme_head : String := "# "

/-- The literal between the two `project_name` interpolations of the
README f-string. -/
def readme_mid : String := "\n\nProfessional web application built with FastAPI.\n\n## Quick Start\n\n\x60\x60\x60bash\n# Setup\npython -m venv venv\nsource venv/bin/activate  # Windows: venv\\Scripts\\activate\npip install -r requirements.txt\n\n# Configure\ncp .env.example .env\n# Edit .env with your settings\n\n# Run\npython app/main.py\n\x60\x60\x60\n\nVisit: http://localhost:8080\n\n## Features\n\n- \u2705 Modern FastAPI backend\n- \u2705 SQLAlchemy database integration\n- \u2705 Professional project structure\n- \u2705 Analytics tracking\n- \u2705 API documentation at /api/docs\n\n## Project Structure\n\n\x60\x60\x60\n"

/-- The literal after the second `project_name` interpolation of the
README f-string (contains the project-structure listing). -/
def readme_tail : String := "/\n\u251c\u2500\u2500 app/           # Application code\n\u251c\u2500\u2500 static/        # Static assets\n\u251c\u2500\u2500 templates/     # HTML templates\n\u251c\u2500\u2500 tests/         # Tests\n\u2514\u2500\u2500 alembic/       # Database migrations\n\x60\x60\x60\n\n## Development\n\n\x60\x60\x60bash\n# Run with auto-reload\npython app/main.py\n\n# Run tests\npytest\n\n# Database migrations\nalembic revision --autogenerate -m \"description\"\nalembic upgrade head\n\x60\x60\x60\n"

/-- Did the invocation return normally (no `sys.exit`)? -/
def CreateResult.isSuccess : CreateResult → Bool
  | CreateResult.success _ _ => true
  | CreateResult.failure _ _ _ => false

/-- The filesystem carried by the result (final state on success, state
at exit on failure). -/
def CreateResult.fsOf : CreateResult → FS
  | CreateResult.success fs _ => fs
  | CreateResult.failure _ _ fs => fs

/-- The CLI `--type` string of each project type. -/
def ProjectType.str : ProjectType → String
  | ProjectType.portfolio => "portfolio"
  | ProjectType.api => "api"
  | ProjectType.fullstack => "fullstack"

/-! Basic facts about the filesystem model. -/

theorem exists_append (fs g : FS) (p : Path) :
    FS.exists (fs ++ g) p = (FS.exists fs p || FS.exists g p) := by
  cases hp : (p == []) with
  | true => simp [FS.exists, hp]
  | false => simp [FS.exists, hp, List.any_append]

theorem exists_mono {fs : FS} {p : Path} (g : FS) (h : FS.exists fs p = true) :
    FS.exists (fs ++ g) p = true := by
  rw [exists_append, h, Bool.true_or]

theorem exists_singleton (q : Path) (e : FSEntry) (p : Path) :
    FS.exists [(q, e)] p = (p == [] || q == p) := by
  simp [FS.exists]

theorem under_refl (p : Path) : Path.under p p = true := by
  simp [Path.under]

theorem under_take {root p : Path} (h : Path.under root p = true) :
    p.take root.length = root := by
  simp only [Path.under, beq_iff_eq] at h
  exact h.symm

theorem under_append_left {a b x : Path} (h : Path.under (a ++ b) x = true) :
    Path.under a x = true := by
  have ht := under_take h
  simp only [Path.under, beq_iff_eq]
  have hx : x.take a.length = a := by
    have hmin : (x.take (a ++ b).length).take a.length = x.take a.length := by
      rw [List.take_take, List.length_append, Nat.min_eq_left (by omega)]
    rw [← hmin, ht, List.take_append_of_le_length (Nat.le_refl _), List.take_length]
  exact hx.symm

theorem under_false_of_lt {q x : Path} (h : x.length < q.length) :
    Path.under q x = false := by
  simp only [Path.under]
  rw [beq_eq_false_iff_ne]
  intro he
  have hl := congrArg List.length he
  simp [List.length_take] at hl
  omega

theorem under_append_inj {b : Path} {n m : String} {x : Path}
    (h1 : Path.under (b ++ [n]) x = true) (h2 : Path.under (b ++ [m]) x = true) :
    n = m := by
  have e1 := under_take h1
  have e2 := under_take h2
  rw [show (b ++ [m]).length = (b ++ [n]).length by simp] at e2
  have := e1.symm.trans e2
  simpa using this

theorem exists_false_of_not_under {fs : FS} {q : Path}
    (h : ∀ pe ∈ fs, Path.under q pe.1 = false) (hq : q ≠ []) :
    FS.exists fs q = false := by
  simp only [FS.exists, Bool.or_eq_false_iff]
  constructor
  · rwa [beq_eq_false_iff_ne]
  · rw [List.any_eq_false]
    intro pe hpe hc
    rw [beq_iff_eq] at hc
    have := h pe hpe
    rw [hc, under_refl] at this
    cases this

theorem write_fresh {fs : FS} {p : Path} (c : String)
    (h : FS.exists fs p = false) :
    FS.write fs p c = fs ++ [(p, FSEntry.file c)] := by
  simp [FS.write, h]

theorem mkdir_exists {fs : FS} {p : Path} (h : FS.exists fs p = true) :
    FS.mkdir fs p = fs := by
  simp [FS.mkdir, h]

theorem mkdir_missing {fs : FS} {p : Path} (h : FS.exists fs p = false) :
    FS.mkdir fs p = fs ++ [(p, FSEntry.dir)] := by
  simp [FS.mkdir, h]

/-! Characterization of `FS.mkdirParents` in the three configurations the
scaffolder reaches: all levels present, only the last level missing, or
the last two levels missing. -/

theorem go_skip : ∀ (mid : List String) (done : Path) (fs : FS) (todo : List String),
    (∀ k ∈ List.range mid.length, FS.exists fs (done ++ mid.take (k + 1)) = true) →
    FS.mkdirParentsGo fs done (mid ++ todo) = FS.mkdirParentsGo fs (done ++ mid) todo := by
  intro mid
  induction mid with
  | nil => intro done fs todo _; simp [FS.mkdirParentsGo]
  | cons c mid ih =>
    intro done fs todo h
    have h0 : FS.exists fs (done ++ [c]) = true := by
      have := h 0 (by simp)
      simpa using this
    show FS.mkdirParentsGo fs done (c :: (mid ++ todo)) = _
    rw [show FS.mkdirParentsGo fs done (c :: (mid ++ todo)) =
        FS.mkdirParentsGo (FS.mkdir fs (done ++ [c])) (done ++ [c]) (mid ++ todo) from rfl]
    rw [mkdir_exists h0]
    rw [ih (done ++ [c]) fs todo ?_]
    · congr 1
      simp
    · intro k hk
      have hmem : k + 1 ∈ List.range (c :: mid).length := by
        simp only [List.mem_range] at hk ⊢
        simp
        omega
      have := h (k + 1) hmem
      rw [List.take_succ_cons] at this
      rw [show done ++ (c :: mid.take (k + 1)) = (done ++ [c]) ++ mid.take (k + 1) by simp] at this
      exact this

theorem go_cons_missing {fs : FS} {done : Path} {c : String} (todo : List String)
    (h : FS.exists fs (done ++ [c]) = false) :
    FS.mkdirParentsGo fs done (c :: todo) =
      FS.mkdirParentsGo (fs ++ [(done ++ [c], FSEntry.dir)]) (done ++ [c]) todo := by
  show FS.mkdirParentsGo (FS.mkdir fs (done ++ [c])) (done ++ [c]) todo = _
  rw [mkdir_missing h]

theorem mkdirParents_all_exist {p : Path} {fs : FS}
    (h : ∀ k ∈ List.range p.length, FS.exists fs (p.take (k + 1)) = true) :
    FS.mkdirParents fs p = fs := by
  unfold FS.mkdirParents
  have := go_skip p [] fs [] (by simpa using h)
  simpa [FS.mkdirParentsGo] using this

theorem mkdirParents_last_missing {q : Path} {c : String} {fs : FS}
    (hanc : ∀ k ∈ List.range q.length, FS.exists fs (q.take (k + 1)) = true)
    (hm : FS.exists fs (q ++ [c]) = false) :
    FS.mkdirParents fs (q ++ [c]) = fs ++ [(q ++ [c], FSEntry.dir)] := by
  unfold FS.mkdirParents
  rw [show (q ++ [c] : Path) = q ++ [c] from rfl]
  have hs := go_skip q [] fs [c] (by simpa using hanc)
  simp only [List.nil_append] at hs
  rw [hs]
  rw [go_cons_missing [] hm]
  rfl

theorem mkdirParents_two_missing {q : Path} {c n : String} {fs : FS}
    (hanc : ∀ k ∈ List.range q.length, FS.exists fs (q.take (k + 1)) = true)
    (hm1 : FS.exists fs (q ++ [c]) = false)
    (hm2 : FS.exists fs (q ++ [c] ++ [n]) = false) :
    FS.mkdirParents fs (q ++ [c] ++ [n]) =
      fs ++ [(q ++ [c], FSEntry.dir), (q ++ [c] ++ [n], FSEntry.dir)] := by
  unfold FS.mkdirParents
  rw [show (q ++ [c] ++ [n] : Path) = q ++ ([c] ++ [n]) by simp]
  have hs := go_skip q [] fs ([c] ++ [n]) (by simpa using hanc)
  simp only [List.nil_append] at hs
  rw [hs]
  rw [show ([c] ++ [n] : List String) = c :: [n] from rfl]
  rw [go_cons_missing [n] hm1]
  have hm2' : FS.exists (fs ++ [(q ++ [c], FSEntry.dir)]) (q ++ [c] ++ [n]) = false := by
    rw [exists_append, hm2, exists_singleton]
    simp only [Bool.false_or]
    rw [Bool.or_eq_false_iff]
    constructor
    · rw [beq_eq_false_iff_ne]; simp
    · rw [beq_eq_false_iff_ne]
      intro he
      have := congrArg List.length he
      simp at this
  rw [go_cons_missing [] hm2']
  simp [FS.mkdirParentsGo]

/-! Every entry `node_entries` attributes to a forest lies strictly below
`base`, under the top-level key of the subtree that contains it. -/

theorem node_entries_under : ∀ (base : Path) (children : Forest),
    ∀ pe ∈ node_entries base children,
      ∃ n ∈ Forest.keys children,
        Path.under (base ++ [n]) pe.1 = true ∧ base.length < pe.1.length := by
  intro base children
  induction base, children using node_entries.induct with
  | case1 base => simp [node_entries]
  | case2 base name cs rest ih1 ih2 =>
    intro pe hpe
    simp only [node_entries, List.mem_cons, List.mem_append] at hpe
    rcases hpe with rfl | hpe | hpe
    · exact ⟨name, by simp [Forest.keys], under_refl _, by simp⟩
    · obtain ⟨n', _, hu, hl⟩ := ih1 pe hpe
      refine ⟨name, by simp [Forest.keys], under_append_left hu, ?_⟩
      have h1 : (base ++ [name]).length = base.length + 1 := by simp
      omega
    · obtain ⟨n', hn', hu, hl⟩ := ih2 pe hpe
      exact ⟨n', by simp [Forest.keys, hn'], hu, hl⟩
  | case3 base name c rest ih =>
    intro pe hpe
    simp only [node_entries, List.mem_cons] at hpe
    rcases hpe with rfl | hpe
    · exact ⟨name, by simp [Forest.keys], under_refl _, by simp⟩
    · obtain ⟨n', hn', hu, hl⟩ := ih pe hpe
      exact ⟨n', by simp [Forest.keys, hn'], hu, hl⟩

theorem nodup_dir_parts {n : String} {cs rest : Forest}
    (h : nodupKeys (Forest.cons n (TreeNode.dir cs) rest) = true) :
    nodupKeys cs = true ∧ nodupKeys rest = true ∧ n ∉ Forest.keys rest := by
  simp only [nodupKeys, Bool.and_eq_true, Bool.not_eq_true'] at h
  exact ⟨h.1.2, h.2, by simpa using h.1.1⟩

theorem nodup_file_parts {n c : String} {rest : Forest}
    (h : nodupKeys (Forest.cons n (TreeNode.file c) rest) = true) :
    nodupKeys rest = true ∧ n ∉ Forest.keys rest := by
  simp only [nodupKeys, Bool.and_eq_true, Bool.not_eq_true'] at h
  exact ⟨h.2, by simpa using h.1⟩

/-! The central characterization of `_build_structure`: materializing a
forest below `base` appends, to any filesystem in which `base`'s strict
ancestors exist and nothing at or below any of the forest's top-level
child paths exists yet, the directory `base` itself (when it is missing
and the forest is non-empty) followed by exactly one entry per node of
the forest, in creation order; and it prints exactly one progress line
per file node. -/

theorem build_structure_spec (root : Path) :
    ∀ (base : Path) (children : Forest) (fs : FS),
      base ≠ [] →
      (∀ k ∈ List.range (base.length - 1), FS.exists fs (base.take (k + 1)) = true) →
      nodupKeys children = true →
      (∀ pe ∈ fs, ∀ n ∈ Forest.keys children, Path.under (base ++ [n]) pe.1 = false) →
      build_structure root base children fs =
        (fs ++ (if Forest.isNil children || FS.exists fs base then [] else [(base, FSEntry.dir)])
            ++ node_entries base children,
         build_outputs root base children) := by
  intro base children fs
  induction base, children, fs using build_structure.induct root with
  | case1 base fs =>
    intro _ _ _ _
    simp [build_structure, node_entries, build_outputs, Forest.isNil]
  | case2 base fs name cs rest fs1 r1 ih1 ih2 =>
    intro hb hanc hnd hfresh
    obtain ⟨hndcs, hndrest, hnr⟩ := nodup_dir_parts hnd
    have hnamek : name ∈ Forest.keys (Forest.cons name (TreeNode.dir cs) rest) := by
      simp [Forest.keys]
    have hmiss : FS.exists fs (base ++ [name]) = false := by
      apply exists_false_of_not_under
      · intro pe hpe; exact hfresh pe hpe name hnamek
      · simp
    have main : ∀ mk : FS,
        FS.mkdirParents fs (base ++ [name]) = fs ++ mk ++ [(base ++ [name], FSEntry.dir)] →
        FS.exists (fs ++ mk) base = true →
        (∀ pe ∈ mk, pe.1 = base) →
        build_structure root base (Forest.cons name (TreeNode.dir cs) rest) fs =
          (fs ++ mk ++ node_entries base (Forest.cons name (TreeNode.dir cs) rest),
           build_outputs root base (Forest.cons name (TreeNode.dir cs) rest)) := by
      intro mk hP3 hP1 hP2
      have hfs1 : fs1 = fs ++ mk ++ [(base ++ [name], FSEntry.dir)] := by
        rw [show fs1 = FS.mkdirParents fs (base ++ [name]) from rfl, hP3]
      rw [hfs1] at ih1
      -- settle the child call
      have r1eq := ih1 (by simp) ?anc1 hndcs ?fresh1
      case anc1 =>
        intro k hk
        simp only [List.length_append, List.length_cons, List.length_nil,
          Nat.add_sub_cancel, List.mem_range] at hk
        rcases Nat.lt_or_ge (k + 1) base.length with hlt | hge
        · have hex0 := hanc k (by simp only [List.mem_range]; omega)
          rw [List.take_append_of_le_length (by omega)]
          rw [show fs ++ mk ++ [(base ++ [name], FSEntry.dir)] =
            fs ++ (mk ++ [(base ++ [name], FSEntry.dir)]) by simp]
          exact exists_mono _ hex0
        · have hkeq : k + 1 = base.length := by omega
          rw [List.take_append_of_le_length (by omega), hkeq, List.take_length]
          exact exists_mono _ hP1
      case fresh1 =>
        intro pe hpe n' hn'
        rcases List.mem_append.1 hpe with hpe' | hpe'
        · rcases List.mem_append.1 hpe' with hpe'' | hpe''
          · rw [← Bool.not_eq_true]
            intro hu
            have hff := hfresh pe hpe'' name hnamek
            rw [under_append_left hu] at hff
            cases hff
          · apply under_false_of_lt
            rw [hP2 pe hpe'']
            simp
        · simp only [List.mem_singleton] at hpe'
          apply under_false_of_lt
          rw [hpe']
          simp
      have hfix1 : FS.exists (fs ++ mk ++ [(base ++ [name], FSEntry.dir)]) (base ++ [name]) = true := by
        rw [exists_append, exists_singleton]
        simp
      rw [hfix1, Bool.or_true, if_pos rfl, List.append_nil] at r1eq
      -- settle the sibling call
      have hr1 : r1 = (fs ++ mk ++ [(base ++ [name], FSEntry.dir)] ++ node_entries (base ++ [name]) cs,
          build_outputs root (base ++ [name]) cs) := by
        rw [show r1 = build_structure root (base ++ [name]) cs fs1 from rfl, hfs1, r1eq]
      rw [hr1] at ih2
      dsimp only at ih2
      have r2eq := ih2 hb ?anc2 hndrest ?fresh2
      case anc2 =>
        intro k hk
        have hex0 := hanc k hk
        rw [show fs ++ mk ++ [(base ++ [name], FSEntry.dir)] ++ node_entries (base ++ [name]) cs =
          fs ++ (mk ++ [(base ++ [name], FSEntry.dir)] ++ node_entries (base ++ [name]) cs) by
            simp [List.append_assoc]]
        exact exists_mono _ hex0
      case fresh2 =>
        intro pe hpe n2 hn2
        have hn2r : n2 ∈ Forest.keys rest := by
          simpa [Forest.keys] using hn2
        rcases List.mem_append.1 hpe with hpe' | hpe'
        · rcases List.mem_append.1 hpe' with hpe'' | hpe''
          · rcases List.mem_append.1 hpe'' with hfs | hmk
            · exact hfresh pe hfs n2 (by simp [Forest.keys, hn2r])
            · apply under_false_of_lt
              rw [hP2 pe hmk]
              simp
          · simp only [List.mem_singleton] at hpe''
            rw [← Bool.not_eq_true]
            intro hu
            rw [hpe''] at hu
            have hun : Path.under (base ++ [name]) (base ++ [name], FSEntry.dir).1 = true :=
              under_refl _
            have heqn := under_append_inj hu hun
            exact hnr (heqn ▸ hn2r)
        · rw [← Bool.not_eq_true]
          intro hu
          obtain ⟨n', _, hu', _⟩ := node_entries_under (base ++ [name]) cs pe hpe'
          have heqn := under_append_inj hu (under_append_left hu')
          exact hnr (heqn ▸ hn2r)
      have hfix2 : FS.exists
          (fs ++ mk ++ [(base ++ [name], FSEntry.dir)] ++ node_entries (base ++ [name]) cs)
          base = true := by
        rw [show fs ++ mk ++ [(base ++ [name], FSEntry.dir)] ++ node_entries (base ++ [name]) cs =
          (fs ++ mk) ++ ([(base ++ [name], FSEntry.dir)] ++ node_entries (base ++ [name]) cs) by
            simp [List.append_assoc]]
        exact exists_mono _ hP1
      rw [hfix2, Bool.or_true, if_pos rfl, List.append_nil] at r2eq
      -- assemble
      show build_structure root base (Forest.cons name (TreeNode.dir cs) rest) fs = _
      simp only [build_structure]
      rw [hP3, r1eq]
      dsimp only
      rw [r2eq]
      dsimp only
      simp [node_entries, build_outputs, List.append_assoc]
    cases hex : FS.exists fs base with
    | true =>
      have hancfull : ∀ k ∈ List.range base.length, FS.exists fs (base.take (k + 1)) = true := by
        intro k hk
        simp only [List.mem_range] at hk
        rcases Nat.lt_or_ge (k + 1) base.length with hlt | hge
        · exact hanc k (by simp only [List.mem_range]; omega)
        · have hkeq : k + 1 = base.length := by omega
          rw [hkeq, List.take_length]
          exact hex
      have hres := main [] (by simpa using mkdirParents_last_missing hancfull hmiss)
        (by simpa using hex) (by simp)
      rw [hres]
      simp [Forest.isNil, hex]
    | false =>
      rcases List.eq_nil_or_concat' base with rfl | ⟨q, c, rfl⟩
      · exact absurd rfl hb
      have hancq : ∀ k ∈ List.range q.length, FS.exists fs (q.take (k + 1)) = true := by
        intro k hk
        simp only [List.mem_range] at hk
        have hkk := hanc k (by simp only [List.mem_range]; simp; omega)
        rwa [List.take_append_of_le_length (by omega)] at hkk
      have hstep : FS.mkdirParents fs (q ++ [c] ++ [name]) =
          fs ++ [(q ++ [c], FSEntry.dir)] ++ [(q ++ [c] ++ [name], FSEntry.dir)] := by
        rw [mkdirParents_two_missing hancq hex hmiss]
        simp
      have hone : FS.exists (fs ++ [(q ++ [c], FSEntry.dir)]) (q ++ [c]) = true := by
        rw [exists_append, exists_singleton]
        simp
      have hres := main [(q ++ [c], FSEntry.dir)] hstep hone (by simp)
      rw [hres]
      simp [Forest.isNil, hex]
  | case3 base fs name c rest fs1 r1 ih =>
    intro hb hanc hnd hfresh
    obtain ⟨hndrest, hnr⟩ := nodup_file_parts hnd
    have hnamek : name ∈ Forest.keys (Forest.cons name (TreeNode.file c) rest) := by
      simp [Forest.keys]
    have hmiss : FS.exists fs (base ++ [name]) = false := by
      apply exists_false_of_not_under
      · intro pe hpe; exact hfresh pe hpe name hnamek
      · simp
    have main : ∀ mk : FS,
        FS.mkdirParents fs base = fs ++ mk →
        FS.exists (fs ++ mk) base = true →
        (∀ pe ∈ mk, pe.1 = base) →
        build_structure root base (Forest.cons name (TreeNode.file c) rest) fs =
          (fs ++ mk ++ node_entries base (Forest.cons name (TreeNode.file c) rest),
           build_outputs root base (Forest.cons name (TreeNode.file c) rest)) := by
      intro mk hP3 hP1 hP2
      have hwr : FS.write (fs ++ mk) (base ++ [name]) c =
          fs ++ mk ++ [(base ++ [name], FSEntry.file c)] := by
        apply write_fresh
        rw [exists_append, hmiss]
        simp only [Bool.false_or]
        apply exists_false_of_not_under
        · intro pe hpe
          apply under_false_of_lt
          rw [hP2 pe hpe]
          simp
        · simp
      have hr1 : r1 = (fs ++ mk ++ [(base ++ [name], FSEntry.file c)],
          "  ✓ Created: " ++ relTo root (base ++ [name])) := by
        rw [show r1 = create_file root fs1 (base ++ [name]) c from rfl,
          show fs1 = FS.mkdirParents fs base from rfl, hP3]
        simp [create_file, hwr]
      rw [hr1] at ih
      dsimp only at ih
      have r2eq := ih hb ?anc2 hndrest ?fresh2
      case anc2 =>
        intro k hk
        have hex0 := hanc k hk
        rw [show fs ++ mk ++ [(base ++ [name], FSEntry.file c)] =
          fs ++ (mk ++ [(base ++ [name], FSEntry.file c)]) by simp [List.append_assoc]]
        exact exists_mono _ hex0
      case fresh2 =>
        intro pe hpe n2 hn2
        have hn2r : n2 ∈ Forest.keys rest := by
          simpa [Forest.keys] using hn2
        rcases List.mem_append.1 hpe with hpe' | hpe'
        · rcases List.mem_append.1 hpe' with hfs | hmk
          · exact hfresh pe hfs n2 (by simp [Forest.keys, hn2r])
          · apply under_false_of_lt
            rw [hP2 pe hmk]
            simp
        · simp only [List.mem_singleton] at hpe'
          rw [← Bool.not_eq_true]
          intro hu
          rw [hpe'] at hu
          have hun : Path.under (base ++ [name]) (base ++ [name], FSEntry.file c).1 = true :=
            under_refl _
          have heqn := under_append_inj hu hun
          exact hnr (heqn ▸ hn2r)
      have hfix2 : FS.exists (fs ++ mk ++ [(base ++ [name], FSEntry.file c)]) base = true := by
        rw [show fs ++ mk ++ [(base ++ [name], FSEntry.file c)] =
          (fs ++ mk) ++ [(base ++ [name], FSEntry.file c)] by simp [List.append_assoc]]
        exact exists_mono _ hP1
      rw [hfix2, Bool.or_true, if_pos rfl, List.append_nil] at r2eq
      show build_structure root base (Forest.cons name (TreeNode.file c) rest) fs = _
      simp only [build_structure]
      rw [hP3]
      have hcf : create_file root (fs ++ mk) (base ++ [name]) c =
          (fs ++ mk ++ [(base ++ [name], FSEntry.file c)],
           "  ✓ Created: " ++ relTo root (base ++ [name])) := by
        simp [create_file, hwr]
      rw [hcf]
      dsimp only
      rw [r2eq]
      dsimp only
      simp [node_entries, build_outputs, List.append_assoc]
    cases hex : FS.exists fs base with
    | true =>
      have hancfull : ∀ k ∈ List.range base.length, FS.exists fs (base.take (k + 1)) = true := by
        intro k hk
        simp only [List.mem_range] at hk
        rcases Nat.lt_or_ge (k + 1) base.length with hlt | hge
        · exact hanc k (by simp only [List.mem_range]; omega)
        · have hkeq : k + 1 = base.length := by omega
          rw [hkeq, List.take_length]
          exact hex
      have hres := main [] (by simpa using mkdirParents_all_exist hancfull)
        (by simpa using hex) (by simp)
      rw [hres]
      simp [Forest.isNil, hex]
    | false =>
      rcases List.eq_nil_or_concat' base with rfl | ⟨q, c', rfl⟩
      · exact absurd rfl hb
      have hancq : ∀ k ∈ List.range q.length, FS.exists fs (q.take (k + 1)) = true := by
        intro k hk
        simp only [List.mem_range] at hk
        have hkk := hanc k (by simp only [List.mem_range]; simp; omega)
        rwa [List.take_append_of_le_length (by omega)] at hkk
      have hstep : FS.mkdirParents fs (q ++ [c']) = fs ++ [(q ++ [c'], FSEntry.dir)] :=
        mkdirParents_last_missing hancq hex
      have hone : FS.exists (fs ++ [(q ++ [c'], FSEntry.dir)]) (q ++ [c']) = true := by
        rw [exists_append, exists_singleton]
        simp
      have hres := main [(q ++ [c'], FSEntry.dir)] hstep hone (by simp)
      rw [hres]
      simp [Forest.isNil, hex]

/-! Facts about the concrete catalog forests. -/

theorem nodup_portfolio : nodupKeys portfolio_structure = true := by decide

theorem nodup_api : nodupKeys api_structure = true := by decide

theorem under_child_false {root x : Path} {n : String}
    (h : Path.under root x = false) : Path.under (root ++ [n]) x = false := by
  rw [← Bool.not_eq_true]
  intro hu
  rw [under_append_left hu] at h
  cases h

theorem exists_child_false {fs : FS} {root : Path} (f : String)
    (hfresh : ∀ pe ∈ fs, Path.under root pe.1 = false) :
    FS.exists fs (root ++ [f]) = false := by
  apply exists_false_of_not_under ?_ (by simp)
  intro pe hpe
  exact under_child_false (hfresh pe hpe)

theorem exists_ne_child_false {root : Path} {children : Forest} {f : String}
    (hf : f ∉ Forest.keys children) :
    FS.exists (node_entries root children) (root ++ [f]) = false := by
  apply exists_false_of_not_under ?_ (by simp)
  intro pe hpe
  rw [← Bool.not_eq_true]
  intro hu
  obtain ⟨n, hn, hun, _⟩ := node_entries_under root children pe hpe
  have heq := under_append_inj hu hun
  exact hf (heq ▸ hn)

theorem exists_file_entry_false (root : Path) (g f : String) (e : FSEntry) (hgf : g ≠ f) :
    FS.exists [(root ++ [g], e)] (root ++ [f]) = false := by
  rw [exists_singleton]
  simp only [Bool.or_eq_false_iff]
  refine ⟨by rw [beq_eq_false_iff_ne]; simp, ?_⟩
  rw [beq_eq_false_iff_ne]
  intro he
  exact hgf (by simpa using he)

theorem exists_rootdir_false (root : Path) (f : String) :
    FS.exists [(root, FSEntry.dir)] (root ++ [f]) = false := by
  rw [exists_singleton]
  simp only [Bool.or_eq_false_iff]
  refine ⟨by rw [beq_eq_false_iff_ne]; simp, ?_⟩
  rw [beq_eq_false_iff_ne]
  intro he
  have := congrArg List.length he
  simp at this

theorem create_file_fresh (root : Path) (fs : FS) (p : Path) (c : String)
    (h : FS.exists fs p = false) :
    create_file root fs p c = (fs ++ [(p, FSEntry.file c)], "  ✓ Created: " ++ relTo root p) := by
  simp [create_file, write_fresh c h]

theorem relTo_append (root l : Path) :
    relTo root (root ++ l) = String.intercalate "/" l := by
  simp [relTo, List.drop_left]

/-! The freshly materialized tree (root directory plus one entry per
node) never contains a root-level file path whose name is not a
top-level key. -/

theorem exists_fresh_result_false {fs : FS} {root : Path} {children : Forest} {f : String}
    (hfresh : ∀ pe ∈ fs, Path.under root pe.1 = false)
    (hf : f ∉ Forest.keys children) :
    FS.exists (fs ++ [(root, FSEntry.dir)] ++ node_entries root children)
      (root ++ [f]) = false := by
  rw [exists_append, exists_append, exists_child_false f hfresh,
    exists_rootdir_false root f, exists_ne_child_false hf]
  rfl

/-! End-to-end characterizations of the two structure creators. -/

theorem create_api_structure_spec (name : String) (fs : FS)
    (hroot : rootPath name ≠ [])
    (hanc : ∀ k ∈ List.range ((rootPath name).length - 1),
      FS.exists fs ((rootPath name).take (k + 1)) = true)
    (hfresh : ∀ pe ∈ fs, Path.under (rootPath name) pe.1 = false) :
    create_api_structure name fs =
      (fs ++ [(rootPath name, FSEntry.dir)] ++ node_entries (rootPath name) api_structure
          ++ [(rootPath name ++ [".env.example"], FSEntry.file get_env_example),
              (rootPath name ++ [".gitignore"], FSEntry.file get_gitignore),
              (rootPath name ++ ["requirements.txt"], FSEntry.file get_requirements),
              (rootPath name ++ ["README.md"], FSEntry.file (get_readme name))],
       build_outputs (rootPath name) (rootPath name) api_structure
          ++ ["  ✓ Created: .env.example",
              "  ✓ Created: .gitignore",
              "  ✓ Created: requirements.txt",
              "  ✓ Created: README.md"]) := by
  have hfreshC : ∀ pe ∈ fs, ∀ n ∈ Forest.keys api_structure,
      Path.under (rootPath name ++ [n]) pe.1 = false :=
    fun pe hpe n _ => under_child_false (hfresh pe hpe)
  have hex : FS.exists fs (rootPath name) = false := exists_false_of_not_under hfresh hroot
  have hb : build_structure (rootPath name) (rootPath name) api_structure fs =
      (fs ++ [(rootPath name, FSEntry.dir)] ++ node_entries (rootPath name) api_structure,
       build_outputs (rootPath name) (rootPath name) api_structure) := by
    rw [build_structure_spec (rootPath name) (rootPath name) api_structure fs
      hroot hanc nodup_api hfreshC, hex]
    rfl
  have e1 : FS.exists (fs ++ [(rootPath name, FSEntry.dir)] ++ node_entries (rootPath name) api_structure)
      (rootPath name ++ [".env.example"]) = false := by
    rw [exists_fresh_result_false hfresh (by decide)]
  have e2 : FS.exists ((fs ++ [(rootPath name, FSEntry.dir)] ++ node_entries (rootPath name) api_structure)
      ++ [(rootPath name ++ [".env.example"], FSEntry.file get_env_example)])
      (rootPath name ++ [".gitignore"]) = false := by
    rw [exists_append,
      exists_fresh_result_false hfresh (by decide),
      exists_file_entry_false (rootPath name) ".env.example" ".gitignore" _ (by decide)]
    rfl
  have e3 : FS.exists (((fs ++ [(rootPath name, FSEntry.dir)] ++ node_entries (rootPath name) api_structure)
      ++ [(rootPath name ++ [".env.example"], FSEntry.file get_env_example)])
      ++ [(rootPath name ++ [".gitignore"], FSEntry.file get_gitignore)])
      (rootPath name ++ ["requirements.txt"]) = false := by
    rw [exists_append,
      exists_append,
      exists_fresh_result_false hfresh (by decide),
      exists_file_entry_false (rootPath name) ".env.example" "requirements.txt" _ (by decide),
      exists_file_entry_false (rootPath name) ".gitignore" "requirements.txt" _ (by decide)]
    rfl
  have e4 : FS.exists ((((fs ++ [(rootPath name, FSEntry.dir)] ++ node_entries (rootPath name) api_structure)
      ++ [(rootPath name ++ [".env.example"], FSEntry.file get_env_example)])
      ++ [(rootPath name ++ [".gitignore"], FSEntry.file get_gitignore)])
      ++ [(rootPath name ++ ["requirements.txt"], FSEntry.file get_requirements)])
      (rootPath name ++ ["README.md"]) = false := by
    rw [exists_append,
      exists_append,
      exists_append,
      exists_fresh_result_false hfresh (by decide),
      exists_file_entry_false (rootPath name) ".env.example" "README.md" _ (by decide),
      exists_file_entry_false (rootPath name) ".gitignore" "README.md" _ (by decide),
      exists_file_entry_false (rootPath name) "requirements.txt" "README.md" _ (by decide)]
    rfl
  show create_api_structure name fs = _
  simp only [create_api_structure]
  rw [hb]
  dsimp only
  rw [create_file_fresh _ _ _ _ e1]
  dsimp only
  rw [create_file_fresh _ _ _ _ e2]
  dsimp only
  rw [create_file_fresh _ _ _ _ e3]
  dsimp only
  rw [create_file_fresh _ _ _ _ e4]
  dsimp only
  simp only [relTo_append]
  simp [List.append_assoc]
  decide

theorem create_portfolio_structure_spec (name : String) (fs : FS)
    (hroot : rootPath name ≠ [])
    (hanc : ∀ k ∈ List.range ((rootPath name).length - 1),
      FS.exists fs ((rootPath name).take (k + 1)) = true)
    (hfresh : ∀ pe ∈ fs, Path.under (rootPath name) pe.1 = false) :
    create_portfolio_structure name fs =
      (fs ++ [(rootPath name, FSEntry.dir)] ++ node_entries (rootPath name) portfolio_structure
          ++ [(rootPath name ++ [".env.example"], FSEntry.file get_env_example),
              (rootPath name ++ [".gitignore"], FSEntry.file get_gitignore),
              (rootPath name ++ ["requirements.txt"], FSEntry.file get_requirements),
              (rootPath name ++ ["README.md"], FSEntry.file (get_readme name)),
              (rootPath name ++ ["Dockerfile"], FSEntry.file get_dockerfile),
              (rootPath name ++ ["docker-compose.yml"], FSEntry.file get_docker_compose),
              (rootPath name ++ ["run.py"], FSEntry.file get_run_py)],
       build_outputs (rootPath name) (rootPath name) portfolio_structure
          ++ ["  ✓ Created: .env.example",
              "  ✓ Created: .gitignore",
              "  ✓ Created: requirements.txt",
              "  ✓ Created: README.md",
              "  ✓ Created: Dockerfile",
              "  ✓ Created: docker-compose.yml",
              "  ✓ Created: run.py"]) := by
  have hfreshC : ∀ pe ∈ fs, ∀ n ∈ Forest.keys portfolio_structure,
      Path.under (rootPath name ++ [n]) pe.1 = false :=
    fun pe hpe n _ => under_child_false (hfresh pe hpe)
  have hex : FS.exists fs (rootPath name) = false := exists_false_of_not_under hfresh hroot
  have hb : build_structure (rootPath name) (rootPath name) portfolio_structure fs =
      (fs ++ [(rootPath name, FSEntry.dir)] ++ node_entries (rootPath name) portfolio_structure,
       build_outputs (rootPath name) (rootPath name) portfolio_structure) := by
    rw [build_structure_spec (rootPath name) (rootPath name) portfolio_structure fs
      hroot hanc nodup_portfolio hfreshC, hex]
    rfl
  have e1 : FS.exists (fs ++ [(rootPath name, FSEntry.dir)] ++ node_entries (rootPath name) portfolio_structure)
      (rootPath name ++ [".env.example"]) = false := by
    rw [exists_fresh_result_false hfresh (by decide)]
  have e2 : FS.exists ((fs ++ [(rootPath name, FSEntry.dir)] ++ node_entries (rootPath name) portfolio_structure)
      ++ [(rootPath name ++ [".env.example"], FSEntry.file get_env_example)])
      (rootPath name ++ [".gitignore"]) = false := by
    rw [exists_append,
      exists_fresh_result_false hfresh (by decide),
      exists_file_entry_false (rootPath name) ".env.example" ".gitignore" _ (by decide)]
    rfl
  have e3 : FS.exists (((fs ++ [(rootPath name, FSEntry.dir)] ++ node_entries (rootPath name) portfolio_structure)
      ++ [(rootPath name ++ [".env.example"], FSEntry.file get_env_example)])
      ++ [(rootPath name ++ [".gitignore"], FSEntry.file get_gitignore)])
      (rootPath name ++ ["requirements.txt"]) = false := by
    rw [exists_append,
      exists_append,
      exists_fresh_result_false hfresh (by decide),
      exists_file_entry_false (rootPath name) ".env.example" "requirements.txt" _ (by decide),
      exists_file_entry_false (rootPath name) ".gitignore" "requirements.txt" _ (by decide)]
    rfl
  have e4 : FS.exists ((((fs ++ [(rootPath name, FSEntry.dir)] ++ node_entries (rootPath name) portfolio_structure)
      ++ [(rootPath name ++ [".env.example"], FSEntry.file get_env_example)])
      ++ [(rootPath name ++ [".gitignore"], FSEntry.file get_gitignore)])
      ++ [(rootPath name ++ ["requirements.txt"], FSEntry.file get_requirements)])
      (rootPath name ++ ["README.md"]) = false := by
    rw [exists_append,
      exists_append,
      exists_append,
      exists_fresh_result_false hfresh (by decide),
      exists_file_entry_false (rootPath name) ".env.example" "README.md" _ (by decide),
      exists_file_entry_false (rootPath name) ".gitignore" "README.md" _ (by decide),
      exists_file_entry_false (rootPath name) "requirements.txt" "README.md" _ (by decide)]
    rfl
  have e5 : FS.exists (((((fs ++ [(rootPath name, FSEntry.dir)] ++ node_entries (rootPath name) portfolio_structure)
      ++ [(rootPath name ++ [".env.example"], FSEntry.file get_env_example)])
      ++ [(rootPath name ++ [".gitignore"], FSEntry.file get_gitignore)])
      ++ [(rootPath name ++ ["requirements.txt"], FSEntry.file get_requirements)])
      ++ [(rootPath name ++ ["README.md"], FSEntry.file (get_readme name))])
      (rootPath name ++ ["Dockerfile"]) = false := by
    rw [exists_append,
      exists_append,
      exists_append,
      exists_append,
      exists_fresh_result_false hfresh (by decide),
      exists_file_entry_false (rootPath name) ".env.example" "Dockerfile" _ (by decide),
      exists_file_entry_false (rootPath name) ".gitignore" "Dockerfile" _ (by decide),
      exists_file_entry_false (rootPath name) "requirements.txt" "Dockerfile" _ (by decide),
      exists_file_entry_false (rootPath name) "README.md" "Dockerfile" _ (by decide)]
    rfl
  have e6 : FS.exists ((((((fs ++ [(rootPath name, FSEntry.dir)] ++ node_entries (rootPath name) portfolio_structure)
      ++ [(rootPath name ++ [".env.example"], FSEntry.file get_env_example)])
      ++ [(rootPath name ++ [".gitignore"], FSEntry.file get_gitignore)])
      ++ [(rootPath name ++ ["requirements.txt"], FSEntry.file get_requirements)])
      ++ [(rootPath name ++ ["README.md"], FSEntry.file (get_readme name))])
      ++ [(rootPath name ++ ["Dockerfile"], FSEntry.file get_dockerfile)])
      (rootPath name ++ ["docker-compose.yml"]) = false := by
    rw [exists_append,
      exists_append,
      exists_append,
      exists_append,
      exists_append,
      exists_fresh_result_false hfresh (by decide),
      exists_file_entry_false (rootPath name) ".env.example" "docker-compose.yml" _ (by decide),
      exists_file_entry_false (rootPath name) ".gitignore" "docker-compose.yml" _ (by decide),
      exists_file_entry_false (rootPath name) "requirements.txt" "docker-compose.yml" _ (by decide),
      exists_file_entry_false (rootPath name) "README.md" "docker-compose.yml" _ (by decide),
      exists_file_entry_false (rootPath name) "Dockerfile" "docker-compose.yml" _ (by decide)]
    rfl
  have e7 : FS.exists (((((((fs ++ [(rootPath name, FSEntry.dir)] ++ node_entries (rootPath name) portfolio_structure)
      ++ [(rootPath name ++ [".env.example"], FSEntry.file get_env_example)])
      ++ [(rootPath name ++ [".gitignore"], FSEntry.file get_gitignore)])
      ++ [(rootPath name ++ ["requirements.txt"], FSEntry.file get_requirements)])
      ++ [(rootPath name ++ ["README.md"], FSEntry.file (get_readme name))])
      ++ [(rootPath name ++ ["Dockerfile"], FSEntry.file get_dockerfile)])
      ++ [(rootPath name ++ ["docker-compose.yml"], FSEntry.file get_docker_compose)])
      (rootPath name ++ ["run.py"]) = false := by
    rw [exists_append,
      exists_append,
      exists_append,
      exists_append,
      exists_append,
      exists_append,
      exists_fresh_result_false hfresh (by decide),
      exists_file_entry_false (rootPath name) ".env.example" "run.py" _ (by decide),
      exists_file_entry_false (rootPath name) ".gitignore" "run.py" _ (by decide),
      exists_file_entry_false (rootPath name) "requirements.txt" "run.py" _ (by decide),
      exists_file_entry_false (rootPath name) "README.md" "run.py" _ (by decide),
      exists_file_entry_false (rootPath name) "Dockerfile" "run.py" _ (by decide),
      exists_file_entry_false (rootPath name) "docker-compose.yml" "run.py" _ (by decide)]
    rfl
  show create_portfolio_structure name fs = _
  simp only [create_portfolio_structure]
  rw [hb]
  dsimp only
  rw [create_file_fresh _ _ _ _ e1]
  dsimp only
  rw [create_file_fresh _ _ _ _ e2]
  dsimp only
  rw [create_file_fresh _ _ _ _ e3]
  dsimp only
  rw [create_file_fresh _ _ _ _ e4]
  dsimp only
  rw [create_file_fresh _ _ _ _ e5]
  dsimp only
  rw [create_file_fresh _ _ _ _ e6]
  dsimp only
  rw [create_file_fresh _ _ _ _ e7]
  dsimp only
  simp only [relTo_append]
  simp [List.append_assoc]
  decide

/-! Dispatch behaviour of `create`. -/

theorem create_exists_abort (name ptype : String) (fs : FS)
    (h : FS.exists fs (rootPath name) = true) :
    create name ptype fs = CreateResult.failure (ScaffoldError.alreadyExists name) 1 fs := by
  simp [create, h]

theorem create_dispatch_portfolio (name : String) (fs : FS)
    (hex : FS.exists fs (rootPath name) = false) :
    create name "portfolio" fs =
      CreateResult.success (create_portfolio_structure name fs).1
        (create_portfolio_structure name fs).2 := by
  simp [create, hex]

theorem create_dispatch_api (name : String) (fs : FS)
    (hex : FS.exists fs (rootPath name) = false) :
    create name "api" fs =
      CreateResult.success (create_api_structure name fs).1
        (create_api_structure name fs).2 := by
  simp [create, hex]

theorem create_dispatch_fullstack (name : String) (fs : FS)
    (hex : FS.exists fs (rootPath name) = false) :
    create name "fullstack" fs =
      CreateResult.success (create_fullstack_structure name fs).1
        (create_fullstack_structure name fs).2 := by
  simp [create, hex]

theorem create_dispatch_unknown (name ptype : String) (fs : FS)
    (hex : FS.exists fs (rootPath name) = false)
    (hp : ptype ≠ "portfolio") (ha : ptype ≠ "api") (hf : ptype ≠ "fullstack") :
    create name ptype fs = CreateResult.failure (ScaffoldError.unknownType ptype) 1 fs := by
  have h1 : (ptype == "portfolio") = false := by rw [beq_eq_false_iff_ne]; exact hp
  have h2 : (ptype == "api") = false := by rw [beq_eq_false_iff_ne]; exact ha
  have h3 : (ptype == "fullstack") = false := by rw [beq_eq_false_iff_ne]; exact hf
  simp [create, hex, h1, h2, h3]

theorem exists_of_mem {fs : FS} {p : Path} (e : FSEntry) (h : (p, e) ∈ fs) :
    FS.exists fs p = true := by
  simp only [FS.exists, Bool.or_eq_true, List.any_eq_true]
  right
  exact ⟨(p, e), h, by simp⟩

/-! Shape lemmas about the derived per-node functions. -/

theorem node_entries_map_fst : ∀ (base : Path) (children : Forest),
    (node_entries base children).map Prod.fst = node_paths base children := by
  intro base children
  induction base, children using node_entries.induct with
  | case1 base => simp [node_entries, node_paths]
  | case2 base name cs rest ih1 ih2 =>
    simp [node_entries, node_paths, ih1, ih2]
  | case3 base name c rest ih =>
    simp [node_entries, node_paths, ih]

theorem node_entries_length : ∀ (base : Path) (children : Forest),
    (node_entries base children).length = nodeCount children := by
  intro base children
  induction base, children using node_entries.induct with
  | case1 base => simp [node_entries, nodeCount]
  | case2 base name cs rest ih1 ih2 =>
    simp [node_entries, nodeCount, ih1, ih2]
    omega
  | case3 base name c rest ih =>
    simp [node_entries, nodeCount, ih]
    omega

theorem file_rel_paths_length : ∀ (rel : Path) (children : Forest),
    (file_rel_paths rel children).length = fileCount children := by
  intro rel children
  induction rel, children using file_rel_paths.induct with
  | case1 rel => simp [file_rel_paths, fileCount]
  | case2 rel name cs rest ih1 ih2 =>
    simp [file_rel_paths, fileCount, ih1, ih2]
  | case3 rel name c rest ih =>
    simp [file_rel_paths, fileCount, ih]
    omega

/-- The progress lines of `_build_structure` are exactly the relative
paths of the file nodes, in order, each behind the `  ✓ Created: `
banner. -/
theorem build_outputs_eq (root : Path) : ∀ (base : Path) (children : Forest),
    ∀ rel, base = root ++ rel →
    build_outputs root base children =
      (file_rel_paths rel children).map
        (fun q => "  ✓ Created: " ++ String.intercalate "/" q) := by
  intro base children
  induction base, children using build_outputs.induct root with
  | case1 base =>
    intro rel _
    simp [build_outputs, file_rel_paths]
  | case2 base name cs rest ih1 ih2 =>
    intro rel hrel
    simp only [build_outputs, file_rel_paths, List.map_append]
    rw [ih1 (rel ++ [name]) (by rw [hrel]; simp), ih2 rel hrel]
  | case3 base name c rest ih =>
    intro rel hrel
    simp only [build_outputs, file_rel_paths, List.map]
    rw [ih rel hrel]
    subst hrel
    congr 1
    rw [show root ++ rel ++ [name] = root ++ (rel ++ [name]) by simp, relTo_append]

theorem file_rel_paths_ofList_append (rel : Path) :
    ∀ (a b : List (String × TreeNode)),
    file_rel_paths rel (Forest.ofList (a ++ b)) =
      file_rel_paths rel (Forest.ofList a) ++ file_rel_paths rel (Forest.ofList b) := by
  intro a b
  induction a with
  | nil => simp [Forest.ofList, file_rel_paths]
  | cons hd tl ih =>
    obtain ⟨n, t⟩ := hd
    cases t with
    | dir cs => simp [Forest.ofList, file_rel_paths, ih]
    | file c => simp [Forest.ofList, file_rel_paths, ih]

theorem fileCount_ofList_append :
    ∀ (a b : List (String × TreeNode)),
    fileCount (Forest.ofList (a ++ b)) =
      fileCount (Forest.ofList a) + fileCount (Forest.ofList b) := by
  intro a b
  induction a with
  | nil => simp [Forest.ofList, fileCount]
  | cons hd tl ih =>
    obtain ⟨n, t⟩ := hd
    cases t with
    | dir cs => simp [Forest.ofList, fileCount, ih]; omega
    | file c => simp [Forest.ofList, fileCount, ih]; omega

/-! Claim theorems.  Each theorem settles one claim of the specification
against the embedded program. -/

/-- C1: for every project name and type, if the target root directory
already exists when `create` is invoked, the operation aborts with the
already-exists error before any filesystem mutation (the filesystem at
exit is exactly the input filesystem, so zero directories or files are
created) and exit status 1 is signaled.  The existence check is the
first statement of `create`, performed once, before the type dispatch
and before anything is created. -/
theorem c1_preexisting_root_aborts (name ptype : String) (fs : FS)
    (h : FS.exists fs (rootPath name) = true) :
    create name ptype fs = CreateResult.failure (ScaffoldError.alreadyExists name) 1 fs :=
  create_exists_abort name ptype fs h

theorem c1_preexisting_root_aborts_witness :
    FS.exists [(["demo"], FSEntry.dir)] (rootPath "demo") = true ∧
    create "demo" "portfolio" [(["demo"], FSEntry.dir)] =
      CreateResult.failure (ScaffoldError.alreadyExists "demo") 1 [(["demo"], FSEntry.dir)] :=
  ⟨by decide, c1_preexisting_root_aborts "demo" "portfolio" [(["demo"], FSEntry.dir)] (by decide)⟩

/-- C9: when the target root already exists and the requested project
type is also unrecognized, the reported error is the already-exists one,
not the unknown-type one: the existence check in `create` precedes the
type dispatch for every combination of name and type. -/
theorem c9_exists_checked_before_type (name ptype : String) (fs : FS)
    (h : FS.exists fs (rootPath name) = true)
    (_hbad : ptype ∉ ["portfolio", "api", "fullstack"]) :
    create name ptype fs = CreateResult.failure (ScaffoldError.alreadyExists name) 1 fs :=
  create_exists_abort name ptype fs h

theorem c9_exists_checked_before_type_witness :
    FS.exists [(["demo"], FSEntry.dir)] (rootPath "demo") = true ∧
    "bogus" ∉ ["portfolio", "api", "fullstack"] ∧
    create "demo" "bogus" [(["demo"], FSEntry.dir)] =
      CreateResult.failure (ScaffoldError.alreadyExists "demo") 1 [(["demo"], FSEntry.dir)] :=
  ⟨by decide, by decide,
    c9_exists_checked_before_type "demo" "bogus" [(["demo"], FSEntry.dir)] (by decide) (by decide)⟩

/-- C4: for every project name and every project type outside
portfolio/api/fullstack, when the root does not pre-exist the tool
signals the unknown-type (configuration) error whose message surfaces
the invalid value, exits with status 1, and performs no filesystem
mutation (the filesystem at exit equals the input). -/
theorem c4_unknown_type_rejected (name ptype : String) (fs : FS)
    (hbad : ptype ∉ ["portfolio", "api", "fullstack"])
    (hex : FS.exists fs (rootPath name) = false) :
    create name ptype fs = CreateResult.failure (ScaffoldError.unknownType ptype) 1 fs ∧
    (ScaffoldError.unknownType ptype).message = "❌ Unknown project type: " ++ ptype := by
  refine ⟨create_dispatch_unknown name ptype fs hex ?_ ?_ ?_, rfl⟩
  · intro h; exact hbad (by simp [h])
  · intro h; exact hbad (by simp [h])
  · intro h; exact hbad (by simp [h])

theorem c4_unknown_type_rejected_witness :
    "webapp" ∉ ["portfolio", "api", "fullstack"] ∧
    FS.exists [] (rootPath "demo") = false ∧
    (create "demo" "webapp" [] = CreateResult.failure (ScaffoldError.unknownType "webapp") 1 [] ∧
     (ScaffoldError.unknownType "webapp").message = "❌ Unknown project type: " ++ "webapp") :=
  ⟨by decide, by decide, c4_unknown_type_rejected "demo" "webapp" [] (by decide) (by decide)⟩

/-- C2: for every tree definition (a forest with the dict property that
keys are unique at each level) and every non-existent root path (whose
proper ancestors exist and below which nothing exists), materialization
creates exactly one filesystem entry per node of the tree — the final
filesystem is the input plus the root directory plus `node_entries`,
which holds one entry for each node at the path mirroring the tree's
nesting (its paths are `node_paths` and its length is `nodeCount`). -/
theorem c2_one_entry_per_node (root : Path) (children : Forest) (fs : FS)
    (hroot : root ≠ [])
    (hanc : ∀ k ∈ List.range (root.length - 1), FS.exists fs (root.take (k + 1)) = true)
    (hnd : nodupKeys children = true)
    (hfresh : ∀ pe ∈ fs, Path.under root pe.1 = false) :
    build_structure root root children fs =
      (fs ++ (if Forest.isNil children then [] else [(root, FSEntry.dir)])
          ++ node_entries root children,
       build_outputs root root children) ∧
    (node_entries root children).map Prod.fst = node_paths root children ∧
    (node_entries root children).length = nodeCount children := by
  refine ⟨?_, node_entries_map_fst root children, node_entries_length root children⟩
  have hfreshC : ∀ pe ∈ fs, ∀ n ∈ Forest.keys children,
      Path.under (root ++ [n]) pe.1 = false :=
    fun pe hpe n _ => under_child_false (hfresh pe hpe)
  have hex : FS.exists fs root = false := exists_false_of_not_under hfresh hroot
  rw [build_structure_spec root root children fs hroot hanc hnd hfreshC, hex]
  simp

theorem c2_one_entry_per_node_witness :
    nodupKeys (Forest.ofList [("a", TreeNode.dir (Forest.ofList [("b.txt", TreeNode.file "x")])),
      ("c.txt", TreeNode.file "y")]) = true ∧
    build_structure ["r"] ["r"]
        (Forest.ofList [("a", TreeNode.dir (Forest.ofList [("b.txt", TreeNode.file "x")])),
          ("c.txt", TreeNode.file "y")]) [] =
      ([] ++ (if Forest.isNil (Forest.ofList [("a", TreeNode.dir (Forest.ofList
            [("b.txt", TreeNode.file "x")])), ("c.txt", TreeNode.file "y")])
          then [] else [(["r"], FSEntry.dir)])
        ++ node_entries ["r"] (Forest.ofList [("a", TreeNode.dir (Forest.ofList
            [("b.txt", TreeNode.file "x")])), ("c.txt", TreeNode.file "y")]),
       build_outputs ["r"] ["r"] (Forest.ofList [("a", TreeNode.dir (Forest.ofList
            [("b.txt", TreeNode.file "x")])), ("c.txt", TreeNode.file "y")])) :=
  ⟨by decide,
    (c2_one_entry_per_node ["r"]
      (Forest.ofList [("a", TreeNode.dir (Forest.ofList [("b.txt", TreeNode.file "x")])),
        ("c.txt", TreeNode.file "y")]) []
      (by decide) (by decide) (by decide) (by decide)).1⟩

/-- C3: for every project name and every type of the `--type` enum,
calling `create` twice in succession against the same fresh root makes
the first call succeed and the second call fail with the already-exists
error while leaving the first call's result byte-for-byte unchanged (the
failure carries exactly the filesystem produced by the first call). -/
theorem c3_second_call_fails_unchanged (name ptype : String) (fs : FS)
    (hty : ptype = "portfolio" ∨ ptype = "api" ∨ ptype = "fullstack")
    (hroot : rootPath name ≠ [])
    (hanc : ∀ k ∈ List.range ((rootPath name).length - 1),
      FS.exists fs ((rootPath name).take (k + 1)) = true)
    (hfresh : ∀ pe ∈ fs, Path.under (rootPath name) pe.1 = false) :
    ∃ fs1 out, create name ptype fs = CreateResult.success fs1 out ∧
      create name ptype fs1 = CreateResult.failure (ScaffoldError.alreadyExists name) 1 fs1 := by
  have hex : FS.exists fs (rootPath name) = false := exists_false_of_not_under hfresh hroot
  rcases hty with rfl | rfl | rfl
  · refine ⟨_, _, create_dispatch_portfolio name fs hex, ?_⟩
    apply create_exists_abort
    rw [create_portfolio_structure_spec name fs hroot hanc hfresh]
    dsimp only
    apply exists_of_mem FSEntry.dir
    simp
  · refine ⟨_, _, create_dispatch_api name fs hex, ?_⟩
    apply create_exists_abort
    rw [create_api_structure_spec name fs hroot hanc hfresh]
    dsimp only
    apply exists_of_mem FSEntry.dir
    simp
  · refine ⟨_, _, create_dispatch_fullstack name fs hex, ?_⟩
    apply create_exists_abort
    rw [show create_fullstack_structure name fs = create_portfolio_structure name fs from rfl,
      create_portfolio_structure_spec name fs hroot hanc hfresh]
    dsimp only
    apply exists_of_mem FSEntry.dir
    simp

theorem c3_second_call_fails_unchanged_witness :
    ("api" = "portfolio" ∨ "api" = "api" ∨ "api" = "fullstack") ∧
    rootPath "demo" ≠ [] ∧
    (∃ fs1 out, create "demo" "api" [] = CreateResult.success fs1 out ∧
      create "demo" "api" fs1 =
        CreateResult.failure (ScaffoldError.alreadyExists "demo") 1 fs1) :=
  ⟨Or.inr (Or.inl rfl), by decide,
    c3_second_call_fails_unchanged "demo" "api" [] (Or.inr (Or.inl rfl))
      (by decide) (by decide) (by decide)⟩

/-- C5: for every project name and filesystem, materializing project
type `fullstack` produces exactly the same result — the same
directory/file tree with the same file contents, the same progress
output, or the same error — as materializing type `portfolio`, because
`_create_fullstack_structure` merely calls `_create_portfolio_structure`. -/
theorem c5_fullstack_equals_portfolio (name : String) (fs : FS) :
    create name "fullstack" fs = create name "portfolio" fs := by
  cases hex : FS.exists fs (rootPath name) with
  | true => rw [create_exists_abort _ _ _ hex, create_exists_abort _ _ _ hex]
  | false =>
    rw [create_dispatch_fullstack name fs hex, create_dispatch_portfolio name fs hex]
    rfl

/-- C6: resolving the catalog definition for a type and a name is a pure
function whose tree has deterministic and stable file and directory
counts: for every built-in project type and every name, the counts equal
fixed constants (66 files and 24 directories for portfolio/fullstack,
16 files and 5 directories for api), independent of the name and hence
identical across repeated resolutions. -/
theorem c6_resolve_counts_deterministic (t : ProjectType) (name : String) :
    fileCount (resolve t name) = project_file_count t ∧
    dirCount (resolve t name) = project_dir_count t := by
  cases t <;> exact ⟨rfl, rfl⟩

/-- C7 counterexample: the claim "a name containing a path separator
such as `/` is rejected or safely handled rather than silently changing
the intended root location" is false at the concrete input
`name = "a/b"` with a directory `a` already present in the working
directory: `create` succeeds (nothing is rejected), no filesystem entry
named `a/b` is created at the top level, and the project is instead
silently materialized at the nested path `a/b` inside the pre-existing
directory `a` (e.g. `a/b/README.md` is written there). -/
theorem c7_separator_counterexample :
    (create "a/b" "api" [(["a"], FSEntry.dir)]).isSuccess = true ∧
    ((create "a/b" "api" [(["a"], FSEntry.dir)]).fsOf.all
      (fun pe => !(pe.1 == ["a/b"]))) = true ∧
    FS.exists (create "a/b" "api" [(["a"], FSEntry.dir)]).fsOf ["a", "b"] = true ∧
    FS.exists (create "a/b" "api" [(["a"], FSEntry.dir)]).fsOf
      ["a", "b", "README.md"] = true := by
  decide

/-- C7 (amended): for every project name — including names containing
spaces, unicode or other path-unsafe characters — the generated README's
content is the README template with the literal name interpolated at
both templated occurrences, and the file written at
`<root>/README.md` carries exactly that content; however, a name
containing `/` is not rejected: the root is the path obtained by
splitting the name at `/`, so such a name silently denotes a nested
location (see the counterexample). -/
theorem c7_readme_name_interpolated (name ptype : String) (fs : FS)
    (hty : ptype = "portfolio" ∨ ptype = "api" ∨ ptype = "fullstack")
    (hroot : rootPath name ≠ [])
    (hanc : ∀ k ∈ List.range ((rootPath name).length - 1),
      FS.exists fs ((rootPath name).take (k + 1)) = true)
    (hfresh : ∀ pe ∈ fs, Path.under (rootPath name) pe.1 = false) :
    get_readme name = readme_head ++ name ++ readme_mid ++ name ++ readme_tail ∧
    ∃ fs1 out, create name ptype fs = CreateResult.success fs1 out ∧
      (rootPath name ++ ["README.md"], FSEntry.file (get_readme name)) ∈ fs1 := by
  refine ⟨rfl, ?_⟩
  have hex : FS.exists fs (rootPath name) = false := exists_false_of_not_under hfresh hroot
  rcases hty with rfl | rfl | rfl
  · refine ⟨_, _, create_dispatch_portfolio name fs hex, ?_⟩
    rw [create_portfolio_structure_spec name fs hroot hanc hfresh]
    dsimp only
    simp
  · refine ⟨_, _, create_dispatch_api name fs hex, ?_⟩
    rw [create_api_structure_spec name fs hroot hanc hfresh]
    dsimp only
    simp
  · refine ⟨_, _, create_dispatch_fullstack name fs hex, ?_⟩
    rw [show create_fullstack_structure name fs = create_portfolio_structure name fs from rfl,
      create_portfolio_structure_spec name fs hroot hanc hfresh]
    dsimp only
    simp

theorem c7_readme_name_interpolated_witness :
    rootPath "my portfolio" ≠ [] ∧
    (get_readme "my portfolio" =
      readme_head ++ "my portfolio" ++ readme_mid ++ "my portfolio" ++ readme_tail ∧
     ∃ fs1 out, create "my portfolio" "portfolio" [] = CreateResult.success fs1 out ∧
      (rootPath "my portfolio" ++ ["README.md"],
        FSEntry.file (get_readme "my portfolio")) ∈ fs1) :=
  ⟨by decide,
    c7_readme_name_interpolated "my portfolio" "portfolio" [] (Or.inl rfl)
      (by decide) (by decide) (by decide)⟩

/-- C8: during materialization one line of progress output is emitted
for every created file (the content-bearing leaves of the tree; silently
created directories are not reported), and the reported lines are the
ordered sequence of file paths relative to the root, so that counting
them yields exactly the tree's file-leaf count. -/
theorem c8_progress_lines_are_file_paths (t : ProjectType) (name : String) (fs : FS)
    (hroot : rootPath name ≠ [])
    (hanc : ∀ k ∈ List.range ((rootPath name).length - 1),
      FS.exists fs ((rootPath name).take (k + 1)) = true)
    (hfresh : ∀ pe ∈ fs, Path.under (rootPath name) pe.1 = false) :
    ∃ fs1 out, create name (ProjectType.str t) fs = CreateResult.success fs1 out ∧
      out = (file_rel_paths [] (resolve t name)).map
        (fun q => "  ✓ Created: " ++ String.intercalate "/" q) ∧
      out.length = fileCount (resolve t name) := by
  have hex : FS.exists fs (rootPath name) = false := exists_false_of_not_under hfresh hroot
  cases t with
  | portfolio =>
    have houtEq : (create_portfolio_structure name fs).2 =
        (file_rel_paths [] (resolve ProjectType.portfolio name)).map
          (fun q => "  ✓ Created: " ++ String.intercalate "/" q) := by
      rw [create_portfolio_structure_spec name fs hroot hanc hfresh]
      dsimp only
      rw [show resolve ProjectType.portfolio name =
        Forest.ofList (portfolio_structure_list ++ portfolio_root_files name) from rfl,
        file_rel_paths_ofList_append, List.map_append]
      congr 1
      rw [show Forest.ofList portfolio_structure_list = portfolio_structure from rfl]
      exact build_outputs_eq (rootPath name) (rootPath name) portfolio_structure [] (by simp)
    exact ⟨_, _, create_dispatch_portfolio name fs hex, houtEq,
      by rw [houtEq, List.length_map, file_rel_paths_length]⟩
  | api =>
    have houtEq : (create_api_structure name fs).2 =
        (file_rel_paths [] (resolve ProjectType.api name)).map
          (fun q => "  ✓ Created: " ++ String.intercalate "/" q) := by
      rw [create_api_structure_spec name fs hroot hanc hfresh]
      dsimp only
      rw [show resolve ProjectType.api name =
        Forest.ofList (api_structure_list ++ api_root_files name) from rfl,
        file_rel_paths_ofList_append, List.map_append]
      congr 1
      rw [show Forest.ofList api_structure_list = api_structure from rfl]
      exact build_outputs_eq (rootPath name) (rootPath name) api_structure [] (by simp)
    exact ⟨_, _, create_dispatch_api name fs hex, houtEq,
      by rw [houtEq, List.length_map, file_rel_paths_length]⟩
  | fullstack =>
    have houtEq : (create_fullstack_structure name fs).2 =
        (file_rel_paths [] (resolve ProjectType.fullstack name)).map
          (fun q => "  ✓ Created: " ++ String.intercalate "/" q) := by
      rw [show create_fullstack_structure name fs = create_portfolio_structure name fs from rfl,
        create_portfolio_structure_spec name fs hroot hanc hfresh]
      dsimp only
      rw [show resolve ProjectType.fullstack name =
        Forest.ofList (portfolio_structure_list ++ portfolio_root_files name) from rfl,
        file_rel_paths_ofList_append, List.map_append]
      congr 1
      rw [show Forest.ofList portfolio_structure_list = portfolio_structure from rfl]
      exact build_outputs_eq (rootPath name) (rootPath name) portfolio_structure [] (by simp)
    exact ⟨_, _, create_dispatch_fullstack name fs hex, houtEq,
      by rw [houtEq, List.length_map, file_rel_paths_length]⟩

theorem c8_progress_lines_are_file_paths_witness :
    rootPath "demo" ≠ [] ∧
    (∃ fs1 out, create "demo" (ProjectType.str ProjectType.api) [] =
        CreateResult.success fs1 out ∧
      out = (file_rel_paths [] (resolve ProjectType.api "demo")).map
        (fun q => "  ✓ Created: " ++ String.intercalate "/" q) ∧
      out.length = fileCount (resolve ProjectType.api "demo")) :=
  ⟨by decide,
    c8_progress_lines_are_file_paths ProjectType.api "demo" []
      (by decide) (by decide) (by decide)⟩

/-- C10: the generated README content depends only on the project name
and not on the project type — `_get_readme` reads only the name, so the
README written for an api project is byte-identical to the one written
for a portfolio project (and fullstack produces the very same result as
portfolio); in particular the api README's tail describes `static/`,
`templates/` and `alembic/` directories, none of which occurs anywhere
in the api tree. -/
theorem c10_readme_independent_of_type (name : String) (fs : FS)
    (hroot : rootPath name ≠ [])
    (hanc : ∀ k ∈ List.range ((rootPath name).length - 1),
      FS.exists fs ((rootPath name).take (k + 1)) = true)
    (hfresh : ∀ pe ∈ fs, Path.under (rootPath name) pe.1 = false) :
    (∃ fs1 out fs2 out2,
      create name "api" fs = CreateResult.success fs1 out ∧
      create name "portfolio" fs = CreateResult.success fs2 out2 ∧
      (rootPath name ++ ["README.md"], FSEntry.file (get_readme name)) ∈ fs1 ∧
      (rootPath name ++ ["README.md"], FSEntry.file (get_readme name)) ∈ fs2) ∧
    create name "fullstack" fs = create name "portfolio" fs ∧
    str_contains readme_tail "static/" = true ∧
    str_contains readme_tail "templates/" = true ∧
    str_contains readme_tail "alembic/" = true ∧
    dir_names api_structure = ["app", "api", "routes", "database", "tests"] ∧
    "static" ∉ dir_names api_structure ∧
    "templates" ∉ dir_names api_structure ∧
    "alembic" ∉ dir_names api_structure := by
  have hex : FS.exists fs (rootPath name) = false := exists_false_of_not_under hfresh hroot
  refine ⟨?_, ?_, by decide, by decide, by decide, rfl, by decide, by decide, by decide⟩
  · refine ⟨_, _, _, _, create_dispatch_api name fs hex,
      create_dispatch_portfolio name fs hex, ?_, ?_⟩
    · rw [create_api_structure_spec name fs hroot hanc hfresh]
      dsimp only
      simp
    · rw [create_portfolio_structure_spec name fs hroot hanc hfresh]
      dsimp only
      simp
  · rw [create_dispatch_fullstack name fs hex, create_dispatch_portfolio name fs hex]
    rfl

theorem c10_readme_independent_of_type_witness :
    rootPath "demo" ≠ [] ∧
    ((∃ fs1 out fs2 out2,
      create "demo" "api" [] = CreateResult.success fs1 out ∧
      create "demo" "portfolio" [] = CreateResult.success fs2 out2 ∧
      (rootPath "demo" ++ ["README.md"], FSEntry.file (get_readme "demo")) ∈ fs1 ∧
      (rootPath "demo" ++ ["README.md"], FSEntry.file (get_readme "demo")) ∈ fs2) ∧
    create "demo" "fullstack" [] = create "demo" "portfolio" [] ∧
    str_contains readme_tail "static/" = true ∧
    str_contains readme_tail "templates/" = true ∧
    str_contains readme_tail "alembic/" = true ∧
    dir_names api_structure = ["app", "api", "routes", "database", "tests"] ∧
    "static" ∉ dir_names api_structure ∧
    "templates" ∉ dir_names api_structure ∧
    "alembic" ∉ dir_names api_structure) :=
  ⟨by decide,
    c10_readme_independent_of_type "demo" [] (by decide) (by decide) (by decide)⟩

end Mkwd
